import Mathlib

/-!
Verification of the UnoDSCKeybusMQTT bridge (src/src/main.cpp).

The development shallowly embeds the parts of the sketch the specification
talks about:

* `loopScan` models the body of `loop()` guarded by `dsc.statusChanged`
  (the per-tick Status Publisher scan), built from one definition per
  publish block of the source.
* `mqttCallback` models the inbound command handler of the same name.
* `mqttHandle`, `advanceTimers`, `loopIter` model the broker reconnect
  supervisor.

MQTT publishes are modelled by an oracle `pub : Nat → Bool` giving the
success of the n-th `mqtt.publish` call of the tick; every publish attempt
is recorded as an event carrying the topic, payload, retain flag and the
oracle's verdict.  Panel writes (`dsc.write`) are recorded as write events
carrying the value of `dsc.writePartition` at the time of the write.
-/

/-- A token written to the panel (`dsc.write`): a single key, or the
configured access code (`accessCode` of the sketch). -/
inductive Tok where
  | key (c : Char)
  | accessCode
deriving DecidableEq

/-- A `dsc.write` call: the value of `dsc.writePartition` at the time of
the write, and the token written. -/
structure WriteEv where
  wp : Nat
  tok : Tok
deriving DecidableEq

/-- The topics the sketch publishes to.  Partition-shaped topics carry the
0-based partition index used by the source (`appendPartition` adds 1);
zone and PGM topics carry the already 1-based number computed at the call
site (`zoneBit + 1 + zoneGroup * 8`). -/
inductive Topic where
  | available
  | trouble
  | part (p : Nat)
  | fire (p : Nat)
  | zone (n : Nat)
  | pgm (n : Nat)
deriving DecidableEq

/-- `MQTTTopicPrefix MQTTTopicGet "/partition"` of the sketch. -/
def MQTTPartitionTopicStr : String := "alarmsys/get/partition"

/-- `MQTTTopicPrefix MQTTTopicGet "/zone"` of the sketch. -/
def MQTTZoneTopicStr : String := "alarmsys/get/zone"

/-- `MQTTTopicPrefix MQTTTopicGet "/pgm"` of the sketch. -/
def MQTTPGMTopicStr : String := "alarmsys/get/pgm"

/-- `MQTTTopicPrefix MQTTTopicGet "/fire"` of the sketch. -/
def MQTTFireTopicStr : String := "alarmsys/get/fire"

/-- `appendPartition`: copies the source topic and appends the decimal
representation of `sourceNumber + 1` (`itoa(sourceNumber + 1, ...)`). -/
def appendPartition (sourceTopic : String) (sourceNumber : Nat) : String :=
  sourceTopic ++ Nat.repr (sourceNumber + 1)

/-- The concrete topic string each `Topic` stands for, exactly as the
sketch builds it (`appendPartition`, or `strcpy`/`itoa`/`strcat` for
zones and PGMs). -/
def Topic.str : Topic → String
  | .available => "alarmsys/get/available"
  | .trouble => "alarmsys/get/trouble"
  | .part p => appendPartition MQTTPartitionTopicStr p
  | .fire p => appendPartition MQTTFireTopicStr p
  | .zone n => MQTTZoneTopicStr ++ Nat.repr n
  | .pgm n => MQTTPGMTopicStr ++ Nat.repr n

/-- One `mqtt.publish` attempt: topic, payload, retain flag, and whether
the transport reported success. -/
structure Ev where
  topic : Topic
  payload : String
  retain : Bool
  ok : Bool
deriving DecidableEq

/-- Effect context threaded through a tick: number of publish calls made
so far (indexing the success oracle), the publish events, and the panel
writes. -/
structure Ctx where
  k : Nat
  evs : List Ev
  writes : List WriteEv
deriving DecidableEq

/-- `publishMQTTMessage`: performs one `mqtt.publish` and returns its
result.  The success of the n-th call of the tick is `pub n`. -/
def publishMQTTMessage (pub : Nat → Bool) (c : Ctx) (t : Topic)
    (pl : String) (retain : Bool) : Ctx × Bool :=
  let ok := pub c.k
  ({ c with k := c.k + 1, evs := c.evs ++ [⟨t, pl, retain, ok⟩] }, ok)

/-- Record a `dsc.write`. -/
def pushWrite (c : Ctx) (w : WriteEv) : Ctx :=
  { c with writes := c.writes ++ [w] }

/-- Pointwise update of a boolean array (`arr[i] = v`). -/
def upd (f : Nat → Bool) (i : Nat) (v : Bool) : Nat → Bool :=
  fun j => if j = i then v else f j

/-- `bitClear(x, b)` of the sketch (`x &= ~(1 << b)`): clear bit `b`.
`Nat` has no complement, so the already-set bit is removed by xor with
`2 ^ b`; when the bit is clear the value is unchanged, as in C. -/
def clearBit (n b : Nat) : Nat :=
  if n.testBit b then n ^^^ 2 ^ b else n

/-- Clear bit `b` of byte `g` of a bank array. -/
def maskClear (f : Nat → Nat) (g b : Nat) : Nat → Nat :=
  fun g' => if g' = g then clearBit (f g) b else f g'

/-- The fields of the shared `dscKeybusInterface` instance that the sketch
reads and writes.  Per-partition arrays are functions from the 0-based
partition index; zone/PGM banks are bytes (`Nat` read through
`Nat.testBit`, i.e. `bitRead`). -/
structure DscState where
  statusChanged : Bool
  bufferOverflow : Bool
  keybusChanged : Bool
  keybusConnected : Bool
  accessCodePrompt : Bool
  troubleChanged : Bool
  trouble : Bool
  disabled : Nat → Bool
  armedChanged : Nat → Bool
  armed : Nat → Bool
  armedAway : Nat → Bool
  armedStay : Nat → Bool
  noEntryDelay : Nat → Bool
  exitDelayChanged : Nat → Bool
  exitDelay : Nat → Bool
  entryDelay : Nat → Bool
  alarmChanged : Nat → Bool
  alarm : Nat → Bool
  fireChanged : Nat → Bool
  fire : Nat → Bool
  ready : Nat → Bool
  openZonesStatusChanged : Bool
  openZones : Nat → Nat
  openZonesChanged : Nat → Nat
  pgmOutputsStatusChanged : Bool
  pgmOutputs : Nat → Nat
  pgmOutputsChanged : Nat → Nat
  writePartition : Nat

/-- `dscPartitions` of the library. -/
def dscPartitions : Nat := 8

/-- `dscZones` of the library (number of zone bank bytes). -/
def dscZones : Nat := 8

/-- Keybus availability block of `loop()` (lines 328-345). -/
def keybusBlock (pub : Nat → Bool) (s : DscState) (c : Ctx) : DscState × Ctx :=
  if s.keybusChanged then
    let r :=
      if s.keybusConnected then
        publishMQTTMessage pub c Topic.available "online" true
      else
        publishMQTTMessage pub c Topic.available "offline" true
    if r.2 then ({ s with keybusChanged := false }, r.1) else (s, r.1)
  else (s, c)

/-- Trouble block of `loop()` (lines 354-371). -/
def troubleBlock (pub : Nat → Bool) (s : DscState) (c : Ctx) : DscState × Ctx :=
  if s.troubleChanged then
    let r :=
      if s.trouble then
        publishMQTTMessage pub c Topic.trouble "1" true
      else
        publishMQTTMessage pub c Topic.trouble "0" true
    if r.2 then ({ s with troubleChanged := false }, r.1) else (s, r.1)
  else (s, c)

/-- Armed/disarmed status block of `loop()` (lines 383-423). -/
def armedBlock (pub : Nat → Bool) (p : Nat) (s : DscState) (c : Ctx) :
    DscState × Ctx :=
  if s.armedChanged p then
    let r :=
      if s.armed p then
        if s.armedAway p && s.noEntryDelay p then
          publishMQTTMessage pub c (Topic.part p) "armed_night" true
        else if s.armedAway p then
          publishMQTTMessage pub c (Topic.part p) "armed_away" true
        else if s.armedStay p && s.noEntryDelay p then
          publishMQTTMessage pub c (Topic.part p) "armed_night" true
        else if s.armedStay p then
          publishMQTTMessage pub c (Topic.part p) "armed_home" true
        else (c, true)
      else
        publishMQTTMessage pub c (Topic.part p) "disarmed" true
    if r.2 then ({ s with armedChanged := upd s.armedChanged p false }, r.1)
    else (s, r.1)
  else (s, c)

/-- Exit delay status block of `loop()` (lines 426-451). -/
def exitDelayBlock (pub : Nat → Bool) (p : Nat) (s : DscState) (c : Ctx) :
    DscState × Ctx :=
  if s.exitDelayChanged p then
    let r :=
      if s.exitDelay p then
        publishMQTTMessage pub c (Topic.part p) "pending" true
      else if !s.exitDelay p && !s.armed p then
        publishMQTTMessage pub c (Topic.part p) "disarmed" true
      else (c, true)
    if r.2 then
      ({ s with exitDelayChanged := upd s.exitDelayChanged p false }, r.1)
    else (s, r.1)
  else (s, c)

/-- Alarm status block of `loop()` (lines 453-479).  Note that the guard
of the `disarmed` branch reads `dsc.armedChanged[partition]` as it stands
after the armed block already ran. -/
def alarmBlock (pub : Nat → Bool) (p : Nat) (s : DscState) (c : Ctx) :
    DscState × Ctx :=
  if s.alarmChanged p then
    let r :=
      if s.alarm p then
        publishMQTTMessage pub c (Topic.part p) "triggered" true
      else if !s.armedChanged p then
        publishMQTTMessage pub c (Topic.part p) "disarmed" true
      else (c, true)
    if r.2 then ({ s with alarmChanged := upd s.alarmChanged p false }, r.1)
    else (s, r.1)
  else (s, c)

/-- Fire status block of `loop()` (lines 487-508).  Fire payloads are not
retained. -/
def fireBlock (pub : Nat → Bool) (p : Nat) (s : DscState) (c : Ctx) :
    DscState × Ctx :=
  if s.fireChanged p then
    let r :=
      if s.fire p then
        publishMQTTMessage pub c (Topic.fire p) "1" false
      else
        publishMQTTMessage pub c (Topic.fire p) "0" false
    if r.2 then ({ s with fireChanged := upd s.fireChanged p false }, r.1)
    else (s, r.1)
  else (s, c)

/-- One iteration of the per-partition loop of `loop()` (lines 373-509):
the four dimension blocks plus the unconditional `armedChanged` reset of
lines 481-484, skipped entirely for disabled partitions. -/
def processPartition (pub : Nat → Bool) (p : Nat) (sc : DscState × Ctx) :
    DscState × Ctx :=
  if sc.1.disabled p then sc
  else
    let sc := armedBlock pub p sc.1 sc.2
    let sc := exitDelayBlock pub p sc.1 sc.2
    let sc := alarmBlock pub p sc.1 sc.2
    let s :=
      if sc.1.armedChanged p then
        { sc.1 with armedChanged := upd sc.1.armedChanged p false }
      else sc.1
    fireBlock pub p s sc.2

/-- The 1-based zone/PGM number of a (group, bit) pair, as computed at the
publish call sites (`zoneBit + 1 + zoneGroup * 8`). -/
def bitIdx (p : Nat × Nat) : Nat := p.2 + 1 + p.1 * 8

/-- Sweep state of a bank sweep: the changed mask array, the running
`all...Reported` accumulator, and the effect context. -/
structure SweepSt where
  chg : Nat → Nat
  ar : Bool
  ctx : Ctx

/-- Body of the innermost zone/PGM loop (one `(group, bit)` pair): if the
changed bit is set, publish `"1"`/`"0"` according to the status bit,
accumulate the result into `ar`, and clear the changed bit on success. -/
def bitStep (pub : Nat → Bool) (tc : Nat → Topic) (stat : Nat → Nat)
    (w : SweepSt) (p : Nat × Nat) : SweepSt :=
  if (w.chg p.1).testBit p.2 then
    let r :=
      if (stat p.1).testBit p.2 then
        publishMQTTMessage pub w.ctx (tc (bitIdx p)) "1" true
      else
        publishMQTTMessage pub w.ctx (tc (bitIdx p)) "0" true
    { chg := if r.2 then maskClear w.chg p.1 p.2 else w.chg
      ar := w.ar && r.2
      ctx := r.1 }
  else w

/-- The (group, bit) pairs visited by a sweep over `n` bank bytes, in
source order. -/
def bankPairs (n : Nat) : List (Nat × Nat) :=
  (List.range n).flatMap fun g => (List.range 8).map fun b => (g, b)

/-- A full bank sweep. -/
def sweep (pub : Nat → Bool) (tc : Nat → Topic) (stat : Nat → Nat)
    (L : List (Nat × Nat)) (w : SweepSt) : SweepSt :=
  L.foldl (bitStep pub tc stat) w

/-- Zone block of `loop()` (lines 517-559): runs only when the group
summary flag is set; the summary is cleared only when `allZoneReported`
survived the sweep. -/
def zonesBlock (pub : Nat → Bool) (s : DscState) (c : Ctx) : DscState × Ctx :=
  if s.openZonesStatusChanged then
    let w := sweep pub Topic.zone s.openZones (bankPairs dscZones)
      ⟨s.openZonesChanged, true, c⟩
    let s := { s with openZonesChanged := w.chg }
    if w.ar then ({ s with openZonesStatusChanged := false }, w.ctx)
    else (s, w.ctx)
  else (s, c)

/-- PGM block of `loop()` (lines 565-607), over two bank bytes. -/
def pgmBlock (pub : Nat → Bool) (s : DscState) (c : Ctx) : DscState × Ctx :=
  if s.pgmOutputsStatusChanged then
    let w := sweep pub Topic.pgm s.pgmOutputs (bankPairs 2)
      ⟨s.pgmOutputsChanged, true, c⟩
    let s := { s with pgmOutputsChanged := w.chg }
    if w.ar then ({ s with pgmOutputsStatusChanged := false }, w.ctx)
    else (s, w.ctx)
  else (s, c)

/-- The partition for-loop of `loop()` over a list of partition
indices. -/
def foldPart (pub : Nat → Bool) (qs : List Nat) (sc : DscState × Ctx) :
    DscState × Ctx :=
  qs.foldl (fun sc q => processPartition pub q sc) sc

/-- The `dsc.statusChanged` body of `loop()` (lines 315-608): one Status
Publisher scan tick. -/
def loopScan (pub : Nat → Bool) (s : DscState) (c : Ctx) : DscState × Ctx :=
  if s.statusChanged then
    let s := { s with statusChanged := false }
    let s := if s.bufferOverflow then { s with bufferOverflow := false } else s
    let sc := keybusBlock pub s c
    let sc :=
      if sc.1.accessCodePrompt then
        ({ sc.1 with accessCodePrompt := false },
          pushWrite sc.2 ⟨sc.1.writePartition, Tok.accessCode⟩)
      else sc
    let sc := troubleBlock pub sc.1 sc.2
    let sc := foldPart pub (List.range dscPartitions) sc
    let sc := zonesBlock pub sc.1 sc.2
    pgmBlock pub sc.1 sc.2
  else (s, c)

/-- `DefaultPartitionId` of the sketch. -/
def DefaultPartitionId : Nat := 1

/-- Byte `i` of the inbound payload (`payload[i]`). -/
def getC (l : List Char) (i : Nat) : Char := l.getD i (Char.ofNat 0)

/-- Target-partition parsing of `mqttCallback` (lines 635-643): a leading
ASCII digit `'1'..'8'` selects the 0-based partition index and shifts the
command byte to position 1; otherwise the index stays
`DefaultPartitionId` and the command byte is position 0. -/
def parseTarget (payload : List Char) : Nat × Nat :=
  if '1' ≤ getC payload 0 ∧ getC payload 0 ≤ '8' then
    ((getC payload 0).toNat - '1'.toNat, 1)
  else (DefaultPartitionId, 0)

/-- `mqttCallback` (lines 617-693): panic write, not-ready compensation,
then the guarded command dispatch.  Returns the mutated `dsc` state and
the panel writes issued. -/
def mqttCallback (s : DscState) (payload : List Char) :
    DscState × List WriteEv :=
  let pd := parseTarget payload
  let partition := pd.1
  let cmd := getC payload pd.2
  let ws : List WriteEv :=
    if cmd = 'P' then [⟨s.writePartition, Tok.key 'p'⟩] else []
  if cmd ≠ 'D' ∧ s.ready partition = false then
    ({ s with
        armedChanged := upd s.armedChanged partition true
        statusChanged := true }, ws)
  else if cmd = 'S' ∧ s.armed partition = false ∧ s.exitDelay partition = false then
    ({ s with writePartition := partition + 1 },
      ws ++ [⟨partition + 1, Tok.key 's'⟩])
  else if cmd = 'A' ∧ s.armed partition = false ∧ s.exitDelay partition = false then
    ({ s with writePartition := partition + 1 },
      ws ++ [⟨partition + 1, Tok.key 'w'⟩])
  else if cmd = 'D' ∧ (s.exitDelay partition ∨ s.entryDelay partition ∨ s.armed partition) then
    ({ s with writePartition := partition + 1 },
      ws ++ [⟨partition + 1, Tok.accessCode⟩])
  else if cmd = 'N' ∧ s.armed partition = false ∧ s.exitDelay partition = false then
    ({ s with writePartition := partition + 1 },
      ws ++ [⟨partition + 1, Tok.key 'n'⟩])
  else if cmd = 'T' ∧ s.armed partition = false ∧ s.exitDelay partition = false then
    ({ s with writePartition := partition + 1 },
      ws ++ [⟨partition + 1, Tok.key '#'⟩])
  else (s, ws)

/-- Broker connection supervisor state: `mqtt.connected()`,
`mqttActionTimer` and `previous` of the sketch. -/
structure MqttSt where
  connected : Bool
  mqttActionTimer : Nat
  previous : Nat
deriving DecidableEq

/-- External inputs of one loop iteration: whether the transport dropped
the connection, what `mqtt.connect` would return if called, and the
`millis()` reading. -/
structure MqttIn where
  drop : Bool
  connectOk : Bool
  ms : Nat
deriving DecidableEq

/-- Observable supervisor actions. -/
inductive MEv where
  | connectAttempt
  | subscribe
deriving DecidableEq

/-- `ConnectBrokerRetryInterval_ms` of the sketch. -/
def ConnectBrokerRetryIntervalMs : Nat := 2000

/-- `mqttHandle` (lines 696-720): when disconnected and the retry timer
is zero, attempt a connect; on failure seed the timer with the retry
interval, on success subscribe and zero the timer. -/
def mqttHandle (i : MqttIn) (s : MqttSt) : MqttSt × List MEv :=
  let s := if i.drop then { s with connected := false } else s
  if s.connected = false then
    if s.mqttActionTimer = 0 then
      if i.connectOk = false then
        ({ s with mqttActionTimer := ConnectBrokerRetryIntervalMs },
          [MEv.connectAttempt])
      else
        ({ s with connected := true, mqttActionTimer := 0 },
          [MEv.connectAttempt, MEv.subscribe])
    else (s, [])
  else (s, [])

/-- `advanceTimers` (lines 738-750): when `millis()` moved, decrement the
retry timer once, but only if it is non-zero. -/
def advanceTimers (ms : Nat) (s : MqttSt) : MqttSt :=
  if ms ≠ s.previous then
    let s := { s with previous := ms }
    if s.mqttActionTimer ≠ 0 then
      { s with mqttActionTimer := s.mqttActionTimer - 1 }
    else s
  else s

/-- One `loop()` iteration as seen by the supervisor: `mqttHandle`, then
`advanceTimers`. -/
def loopIter (i : MqttIn) (s : MqttSt) : MqttSt × List MEv :=
  let r := mqttHandle i s
  (advanceTimers i.ms r.1, r.2)

/-- Number of connect attempts over a run of loop iterations. -/
def runAttempts : List MqttIn → MqttSt → Nat
  | [], _ => 0
  | i :: L, s =>
    (if (loopIter i s).2.contains MEv.connectAttempt then 1 else 0) +
      runAttempts L (loopIter i s).1

/-- The armed-state dimension payload as §4.1 item 1 of the specification
words it, for comparison with `armedBlock` (refinement claim C5):
`armed_night` if (`armedAway or armedStay`) and `noEntryDelay`; else
`armed_away` if `armedAway`; else `armed_home` if `armedStay`; else
nothing; `disarmed` when not armed. -/
def specArmedPayload (armed away stay noED : Bool) : Option String :=
  if armed then
    if (away || stay) && noED then some "armed_night"
    else if away then some "armed_away"
    else if stay then some "armed_home"
    else none
  else some "disarmed"

/-- Number of publish attempts in `evs` with the given topic and
payload. -/
def countTP (evs : List Ev) (t : Topic) (pl : String) : Nat :=
  (evs.filter fun e => decide (e.topic = t) && decide (e.payload = pl)).length

/-- A quiescent panel state: nothing changed, nothing set. -/
def quietState : DscState where
  statusChanged := false
  bufferOverflow := false
  keybusChanged := false
  keybusConnected := true
  accessCodePrompt := false
  troubleChanged := false
  trouble := false
  disabled := fun _ => false
  armedChanged := fun _ => false
  armed := fun _ => false
  armedAway := fun _ => false
  armedStay := fun _ => false
  noEntryDelay := fun _ => false
  exitDelayChanged := fun _ => false
  exitDelay := fun _ => false
  entryDelay := fun _ => false
  alarmChanged := fun _ => false
  alarm := fun _ => false
  fireChanged := fun _ => false
  fire := fun _ => false
  ready := fun _ => true
  openZonesStatusChanged := false
  openZones := fun _ => 0
  openZonesChanged := fun _ => 0
  pgmOutputsStatusChanged := false
  pgmOutputs := fun _ => 0
  pgmOutputsChanged := fun _ => 0
  writePartition := 0

/-- Empty effect context. -/
def ctx0 : Ctx := ⟨0, [], []⟩

theorem upd_self (f : Nat → Bool) (i : Nat) (v : Bool) : upd f i v i = v := by
  simp [upd]

theorem upd_ne (f : Nat → Bool) (i j : Nat) (v : Bool) (h : j ≠ i) :
    upd f i v j = f j := by
  simp [upd, h]

theorem clearBit_testBit_self (n b : Nat) : (clearBit n b).testBit b = false := by
  by_cases h : n.testBit b
  · simp [clearBit, h, Nat.testBit_xor, Nat.testBit_two_pow_self]
  · simp only [clearBit, h, if_false]
    simpa using h

theorem clearBit_testBit_ne (n b b' : Nat) (h : b' ≠ b) :
    (clearBit n b).testBit b' = n.testBit b' := by
  by_cases hb : n.testBit b
  · simp [clearBit, hb, Nat.testBit_xor,
      Nat.testBit_two_pow_of_ne (fun he => h he.symm)]
  · simp [clearBit, hb]

theorem maskClear_testBit_self (f : Nat → Nat) (g b : Nat) :
    ((maskClear f g b) g).testBit b = false := by
  simp [maskClear, clearBit_testBit_self]

theorem maskClear_testBit_ne (f : Nat → Nat) (g b g' b' : Nat)
    (h : (g', b') ≠ (g, b)) :
    ((maskClear f g b) g').testBit b' = (f g').testBit b' := by
  unfold maskClear
  by_cases hg : g' = g
  · subst hg
    have hb : b' ≠ b := by
      intro hbb
      exact h (by simp [hbb])
    simp [clearBit_testBit_ne _ _ _ hb]
  · simp [hg]

theorem countTP_append (a b : List Ev) (t : Topic) (pl : String) :
    countTP (a ++ b) t pl = countTP a t pl + countTP b t pl := by
  simp [countTP, List.filter_append]

theorem countTP_eq_zero (E : List Ev) (t : Topic) (pl : String)
    (h : ∀ e ∈ E, e.topic ≠ t) : countTP E t pl = 0 := by
  simp only [countTP, List.length_eq_zero, List.filter_eq_nil_iff]
  intro e he
  simp [h e he]

theorem bitIdx_inj {p q : Nat × Nat} (hp : p.2 < 8) (hq : q.2 < 8)
    (h : bitIdx p = bitIdx q) : p = q := by
  obtain ⟨g1, b1⟩ := p
  obtain ⟨g2, b2⟩ := q
  simp only [bitIdx] at h hp hq
  simp only [Prod.mk.injEq]
  omega

/-- Full characterization of a bank sweep over a duplicate-free pair list:
the events appended, the `all...Reported` accumulator, and the pointwise
fate of every changed-mask bit (cleared exactly when its own publish
succeeded; untouched positions keep their value). -/
theorem sweep_spec (pub : Nat → Bool) (tc : Nat → Topic) (stat : Nat → Nat)
    (htc : ∀ m n, tc m = tc n → m = n) :
    ∀ (L : List (Nat × Nat)) (w : SweepSt), L.Nodup → (∀ p ∈ L, p.2 < 8) →
    ∃ E : List Ev,
      (sweep pub tc stat L w).ctx.evs = w.ctx.evs ++ E ∧
      (sweep pub tc stat L w).ctx.writes = w.ctx.writes ∧
      (sweep pub tc stat L w).ar = (w.ar && E.all (fun e => e.ok)) ∧
      (∀ e ∈ E, ∃ p ∈ L, e.topic = tc (bitIdx p)) ∧
      (∀ p ∈ L,
        ((w.chg p.1).testBit p.2 = true →
          ∃ ok : Bool,
            E.filter (fun e => decide (e.topic = tc (bitIdx p))) =
              [⟨tc (bitIdx p), if (stat p.1).testBit p.2 then "1" else "0",
                true, ok⟩] ∧
            ((sweep pub tc stat L w).chg p.1).testBit p.2 = !ok) ∧
        ((w.chg p.1).testBit p.2 = false →
          E.filter (fun e => decide (e.topic = tc (bitIdx p))) = [] ∧
          ((sweep pub tc stat L w).chg p.1).testBit p.2 = false)) ∧
      (∀ g b : Nat, (g, b) ∉ L →
        ((sweep pub tc stat L w).chg g).testBit b = (w.chg g).testBit b) := by
  intro L
  induction L with
  | nil =>
    intro w _ _
    exact ⟨[], by simp [sweep], by simp [sweep], by simp [sweep],
      by simp, by simp, fun g b _ => by simp [sweep]⟩
  | cons p L ih =>
    intro w hnd hb
    have hndL : L.Nodup := hnd.of_cons
    have hpL : p ∉ L := (List.nodup_cons.mp hnd).1
    have hbp : p.2 < 8 := hb p (List.mem_cons_self _ _)
    have hbL : ∀ q ∈ L, q.2 < 8 := fun q hq => hb q (List.mem_cons_of_mem _ hq)
    have hsw : sweep pub tc stat (p :: L) w =
        sweep pub tc stat L (bitStep pub tc stat w p) := rfl
    have hne_tc : ∀ q, q.2 < 8 → q ≠ p → tc (bitIdx q) ≠ tc (bitIdx p) := by
      intro q hq hqp he
      exact hqp (bitIdx_inj hq hbp (htc _ _ he))
    by_cases hc : (w.chg p.1).testBit p.2
    · -- the changed bit is set: one publish happens for `p`
      have hstep : bitStep pub tc stat w p =
          ⟨if pub w.ctx.k then maskClear w.chg p.1 p.2 else w.chg,
            w.ar && pub w.ctx.k,
            ⟨w.ctx.k + 1,
              w.ctx.evs ++ [⟨tc (bitIdx p),
                if (stat p.1).testBit p.2 then "1" else "0", true, pub w.ctx.k⟩],
              w.ctx.writes⟩⟩ := by
        by_cases hs : (stat p.1).testBit p.2 <;>
          simp [bitStep, hc, hs, publishMQTTMessage]
      obtain ⟨E', h1, h2, h3, h4, h5, h6⟩ := ih (bitStep pub tc stat w p) hndL hbL
      refine ⟨⟨tc (bitIdx p), if (stat p.1).testBit p.2 then "1" else "0",
        true, pub w.ctx.k⟩ :: E', ?_, ?_, ?_, ?_, ?_, ?_⟩
      · rw [hsw, h1, hstep]
        simp
      · rw [hsw, h2, hstep]
      · rw [hsw, h3, hstep]
        simp [Bool.and_assoc]
      · intro e he
        rcases List.mem_cons.mp he with he | he
        · exact ⟨p, List.mem_cons_self _ _, by rw [he]⟩
        · obtain ⟨q, hq, hqt⟩ := h4 e he
          exact ⟨q, List.mem_cons_of_mem _ hq, hqt⟩
      · intro q hq
        rcases List.mem_cons.mp hq with hq | hq
        · subst hq
          constructor
          · intro _
            refine ⟨pub w.ctx.k, ?_, ?_⟩
            · have hfilE' : E'.filter
                  (fun e => decide (e.topic = tc (bitIdx q))) = [] := by
                rw [List.filter_eq_nil_iff]
                intro e he
                obtain ⟨q', hq', hqt'⟩ := h4 e he
                have : q' ≠ q := fun hqq => hpL (hqq ▸ hq')
                simp [hqt', hne_tc q' (hbL q' hq') this]
              simp [List.filter_cons, hfilE']
            · have huntouched := h6 q.1 q.2 (by
                intro hmem
                exact hpL (by simpa using hmem))
              rw [hsw] at *
              rw [huntouched, hstep]
              by_cases hok : pub w.ctx.k
              · simp [hok, maskClear_testBit_self]
              · simp only [hok]
                simp [hc, Bool.not_false, hok]
          · intro hcf
            rw [hc] at hcf
            exact absurd hcf (by simp)
        · have hqp : q ≠ p := fun h => hpL (h ▸ hq)
          have hwchg : ((bitStep pub tc stat w p).chg q.1).testBit q.2 =
              (w.chg q.1).testBit q.2 := by
            rw [hstep]
            by_cases hok : pub w.ctx.k
            · simp only [hok, if_true]
              exact maskClear_testBit_ne _ _ _ _ _ (by
                intro hpair
                exact hqp (Prod.ext_iff.mpr (Prod.mk.injEq _ _ _ _ ▸ hpair)))
            · simp [hok]
          have hfe : (fun (e : Ev) => decide (e.topic = tc (bitIdx q)))
              ⟨tc (bitIdx p), if (stat p.1).testBit p.2 then "1" else "0",
                true, pub w.ctx.k⟩ = false := by
            simp
            intro hee
            exact hne_tc q (hbL q hq) hqp (hee ▸ rfl)
          constructor
          · intro hct
            obtain ⟨ok, hfil, hfin⟩ := (h5 q hq).1 (by rw [hwchg] at *; exact hwchg ▸ hct)
            refine ⟨ok, ?_, ?_⟩
            · rw [List.filter_cons]
              simp only [hfe, if_false]
              exact hfil
            · rw [hsw]; exact hfin
          · intro hcf
            obtain ⟨hfil, hfin⟩ := (h5 q hq).2 (by rw [hwchg]; exact hcf)
            refine ⟨?_, ?_⟩
            · rw [List.filter_cons]
              simp only [hfe, if_false]
              exact hfil
            · rw [hsw]; exact hfin
      · intro g b hgb
        have hgbL : (g, b) ∉ L := fun h => hgb (List.mem_cons_of_mem _ h)
        have hgbp : (g, b) ≠ p := fun h => hgb (h ▸ List.mem_cons_self _ _)
        rw [hsw, h6 g b hgbL, hstep]
        by_cases hok : pub w.ctx.k
        · simp only [hok, if_true]
          exact maskClear_testBit_ne _ _ _ _ _ (by
            intro hpair
            exact hgbp (by
              obtain ⟨gp, bp⟩ := p
              simpa using hpair))
        · simp [hok]
    · -- the changed bit is clear: no publish for `p`
      have hstep : bitStep pub tc stat w p = w := by
        simp [bitStep, hc]
      obtain ⟨E', h1, h2, h3, h4, h5, h6⟩ := ih (bitStep pub tc stat w p) hndL hbL
      rw [hstep] at h1 h2 h3 h5 h6
      refine ⟨E', ?_, ?_, ?_, ?_, ?_, ?_⟩
      · rw [hsw, hstep]; exact h1
      · rw [hsw, hstep]; exact h2
      · rw [hsw, hstep]; exact h3
      · intro e he
        obtain ⟨q, hq, hqt⟩ := h4 e he
        exact ⟨q, List.mem_cons_of_mem _ hq, hqt⟩
      · intro q hq
        rcases List.mem_cons.mp hq with hq | hq
        · subst hq
          constructor
          · intro hct
            rw [hct] at hc
            exact absurd rfl hc
          · intro _
            have hfilE' : E'.filter
                (fun e => decide (e.topic = tc (bitIdx q))) = [] := by
              rw [List.filter_eq_nil_iff]
              intro e he
              obtain ⟨q', hq', hqt'⟩ := h4 e he
              have : q' ≠ q := fun hqq => hpL (hqq ▸ hq')
              simp [hqt', hne_tc q' (hbL q' hq') this]
            refine ⟨hfilE', ?_⟩
            have huntouched := h6 q.1 q.2 (by
              intro hmem
              exact hpL (by simpa using hmem))
            rw [hsw, hstep]
            rw [huntouched]
            simpa using hc
        · constructor
          · intro hct
            obtain ⟨ok, hfil, hfin⟩ := (h5 q hq).1 hct
            exact ⟨ok, hfil, by rw [hsw, hstep]; exact hfin⟩
          · intro hcf
            obtain ⟨hfil, hfin⟩ := (h5 q hq).2 hcf
            exact ⟨hfil, by rw [hsw, hstep]; exact hfin⟩
      · intro g b hgb
        have hgbL : (g, b) ∉ L := fun h => hgb (List.mem_cons_of_mem _ h)
        rw [hsw, hstep]
        exact h6 g b hgbL

theorem armedBlock_state (pub : Nat → Bool) (p : Nat) (s : DscState) (c : Ctx) :
    (armedBlock pub p s c).1 = s ∨
    (armedBlock pub p s c).1 =
      { s with armedChanged := upd s.armedChanged p false } := by
  unfold armedBlock publishMQTTMessage
  by_cases h : s.armedChanged p
  · by_cases ha : s.armed p <;> by_cases haw : s.armedAway p <;>
      by_cases hst : s.armedStay p <;> by_cases hne : s.noEntryDelay p <;>
      by_cases hk : pub c.k <;>
      simp [h, ha, haw, hst, hne, hk]
  · simp [h]

theorem armedBlock_ctx (pub : Nat → Bool) (p : Nat) (s : DscState) (c : Ctx) :
    (armedBlock pub p s c).2 = c ∨
    ∃ pl, (armedBlock pub p s c).2 =
      { c with
          k := c.k + 1
          evs := c.evs ++ [⟨Topic.part p, pl, true, pub c.k⟩] } := by
  unfold armedBlock publishMQTTMessage
  by_cases h : s.armedChanged p
  · by_cases ha : s.armed p <;> by_cases haw : s.armedAway p <;>
      by_cases hst : s.armedStay p <;> by_cases hne : s.noEntryDelay p <;>
      by_cases hk : pub c.k <;>
      simp [h, ha, haw, hst, hne, hk]
  · simp [h]

theorem exitDelayBlock_state (pub : Nat → Bool) (p : Nat) (s : DscState)
    (c : Ctx) :
    (exitDelayBlock pub p s c).1 = s ∨
    (exitDelayBlock pub p s c).1 =
      { s with exitDelayChanged := upd s.exitDelayChanged p false } := by
  unfold exitDelayBlock publishMQTTMessage
  by_cases h : s.exitDelayChanged p
  · by_cases he : s.exitDelay p <;> by_cases ha : s.armed p <;>
      by_cases hk : pub c.k <;>
      simp [h, he, ha, hk]
  · simp [h]

theorem exitDelayBlock_ctx (pub : Nat → Bool) (p : Nat) (s : DscState)
    (c : Ctx) :
    (exitDelayBlock pub p s c).2 = c ∨
    ∃ pl, (exitDelayBlock pub p s c).2 =
      { c with
          k := c.k + 1
          evs := c.evs ++ [⟨Topic.part p, pl, true, pub c.k⟩] } := by
  unfold exitDelayBlock publishMQTTMessage
  by_cases h : s.exitDelayChanged p
  · by_cases he : s.exitDelay p <;> by_cases ha : s.armed p <;>
      by_cases hk : pub c.k <;>
      simp [h, he, ha, hk]
  · simp [h]

theorem alarmBlock_state (pub : Nat → Bool) (p : Nat) (s : DscState) (c : Ctx) :
    (alarmBlock pub p s c).1 = s ∨
    (alarmBlock pub p s c).1 =
      { s with alarmChanged := upd s.alarmChanged p false } := by
  unfold alarmBlock publishMQTTMessage
  by_cases h : s.alarmChanged p
  · by_cases hal : s.alarm p <;> by_cases hac : s.armedChanged p <;>
      by_cases hk : pub c.k <;>
      simp [h, hal, hac, hk]
  · simp [h]

theorem alarmBlock_ctx (pub : Nat → Bool) (p : Nat) (s : DscState) (c : Ctx) :
    (alarmBlock pub p s c).2 = c ∨
    ∃ pl, (alarmBlock pub p s c).2 =
      { c with
          k := c.k + 1
          evs := c.evs ++ [⟨Topic.part p, pl, true, pub c.k⟩] } := by
  unfold alarmBlock publishMQTTMessage
  by_cases h : s.alarmChanged p
  · by_cases hal : s.alarm p <;> by_cases hac : s.armedChanged p <;>
      by_cases hk : pub c.k <;>
      simp [h, hal, hac, hk]
  · simp [h]

theorem fireBlock_state (pub : Nat → Bool) (p : Nat) (s : DscState) (c : Ctx) :
    (fireBlock pub p s c).1 = s ∨
    (fireBlock pub p s c).1 =
      { s with fireChanged := upd s.fireChanged p false } := by
  unfold fireBlock publishMQTTMessage
  by_cases h : s.fireChanged p
  · by_cases hf : s.fire p <;> by_cases hk : pub c.k <;>
      simp [h, hf, hk]
  · simp [h]

theorem fireBlock_ctx (pub : Nat → Bool) (p : Nat) (s : DscState) (c : Ctx) :
    (fireBlock pub p s c).2 = c ∨
    ∃ pl, (fireBlock pub p s c).2 =
      { c with
          k := c.k + 1
          evs := c.evs ++ [⟨Topic.fire p, pl, false, pub c.k⟩] } := by
  unfold fireBlock publishMQTTMessage
  by_cases h : s.fireChanged p
  · by_cases hf : s.fire p <;> by_cases hk : pub c.k <;>
      simp [h, hf, hk]
  · simp [h]

theorem keybusBlock_state (pub : Nat → Bool) (s : DscState) (c : Ctx) :
    (keybusBlock pub s c).1 = s ∨
    (keybusBlock pub s c).1 = { s with keybusChanged := false } := by
  unfold keybusBlock publishMQTTMessage
  by_cases h : s.keybusChanged
  · by_cases hc : s.keybusConnected <;> by_cases hk : pub c.k <;>
      simp [h, hc, hk]
  · simp [h]

theorem keybusBlock_ctx (pub : Nat → Bool) (s : DscState) (c : Ctx) :
    (keybusBlock pub s c).2 = c ∨
    ∃ pl, (keybusBlock pub s c).2 =
      { c with
          k := c.k + 1
          evs := c.evs ++ [⟨Topic.available, pl, true, pub c.k⟩] } := by
  unfold keybusBlock publishMQTTMessage
  by_cases h : s.keybusChanged
  · by_cases hc : s.keybusConnected <;> by_cases hk : pub c.k <;>
      simp [h, hc, hk]
  · simp [h]

theorem troubleBlock_state (pub : Nat → Bool) (s : DscState) (c : Ctx) :
    (troubleBlock pub s c).1 = s ∨
    (troubleBlock pub s c).1 = { s with troubleChanged := false } := by
  unfold troubleBlock publishMQTTMessage
  by_cases h : s.troubleChanged
  · by_cases ht : s.trouble <;> by_cases hk : pub c.k <;>
      simp [h, ht, hk]
  · simp [h]

theorem troubleBlock_ctx (pub : Nat → Bool) (s : DscState) (c : Ctx) :
    (troubleBlock pub s c).2 = c ∨
    ∃ pl, (troubleBlock pub s c).2 =
      { c with
          k := c.k + 1
          evs := c.evs ++ [⟨Topic.trouble, pl, true, pub c.k⟩] } := by
  unfold troubleBlock publishMQTTMessage
  by_cases h : s.troubleChanged
  · by_cases ht : s.trouble <;> by_cases hk : pub c.k <;>
      simp [h, ht, hk]
  · simp [h]

/-- The status fields a partition pass leaves untouched, plus the four
changed markers at an index `j` other than the processed one. -/
def keepsFrom (s s' : DscState) (j : Nat) : Prop :=
  s'.disabled = s.disabled ∧ s'.armed = s.armed ∧ s'.armedAway = s.armedAway ∧
  s'.armedStay = s.armedStay ∧ s'.noEntryDelay = s.noEntryDelay ∧
  s'.alarm = s.alarm ∧ s'.exitDelay = s.exitDelay ∧
  s'.entryDelay = s.entryDelay ∧ s'.fire = s.fire ∧ s'.ready = s.ready ∧
  s'.armedChanged j = s.armedChanged j ∧
  s'.exitDelayChanged j = s.exitDelayChanged j ∧
  s'.alarmChanged j = s.alarmChanged j ∧
  s'.fireChanged j = s.fireChanged j

theorem keepsFrom_rfl (s : DscState) (j : Nat) : keepsFrom s s j := by
  exact ⟨rfl, rfl, rfl, rfl, rfl, rfl, rfl, rfl, rfl, rfl, rfl, rfl, rfl, rfl⟩

theorem keepsFrom_trans {s s' s'' : DscState} {j : Nat}
    (h1 : keepsFrom s s' j) (h2 : keepsFrom s' s'' j) : keepsFrom s s'' j := by
  obtain ⟨a1, a2, a3, a4, a5, a6, a7, a8, a9, a10, a11, a12, a13, a14⟩ := h1
  obtain ⟨b1, b2, b3, b4, b5, b6, b7, b8, b9, b10, b11, b12, b13, b14⟩ := h2
  exact ⟨b1.trans a1, b2.trans a2, b3.trans a3, b4.trans a4, b5.trans a5,
    b6.trans a6, b7.trans a7, b8.trans a8, b9.trans a9, b10.trans a10,
    b11.trans a11, b12.trans a12, b13.trans a13, b14.trans a14⟩

theorem armedBlock_keeps (pub : Nat → Bool) (q : Nat) (s : DscState) (c : Ctx)
    (j : Nat) (hj : j ≠ q) : keepsFrom s (armedBlock pub q s c).1 j := by
  rcases armedBlock_state pub q s c with h | h <;> rw [h]
  · exact keepsFrom_rfl s j
  · exact ⟨rfl, rfl, rfl, rfl, rfl, rfl, rfl, rfl, rfl, rfl,
      upd_ne _ _ _ _ hj, rfl, rfl, rfl⟩

theorem exitDelayBlock_keeps (pub : Nat → Bool) (q : Nat) (s : DscState)
    (c : Ctx) (j : Nat) (hj : j ≠ q) :
    keepsFrom s (exitDelayBlock pub q s c).1 j := by
  rcases exitDelayBlock_state pub q s c with h | h <;> rw [h]
  · exact keepsFrom_rfl s j
  · exact ⟨rfl, rfl, rfl, rfl, rfl, rfl, rfl, rfl, rfl, rfl,
      rfl, upd_ne _ _ _ _ hj, rfl, rfl⟩

theorem alarmBlock_keeps (pub : Nat → Bool) (q : Nat) (s : DscState) (c : Ctx)
    (j : Nat) (hj : j ≠ q) : keepsFrom s (alarmBlock pub q s c).1 j := by
  rcases alarmBlock_state pub q s c with h | h <;> rw [h]
  · exact keepsFrom_rfl s j
  · exact ⟨rfl, rfl, rfl, rfl, rfl, rfl, rfl, rfl, rfl, rfl,
      rfl, rfl, upd_ne _ _ _ _ hj, rfl⟩

theorem fireBlock_keeps (pub : Nat → Bool) (q : Nat) (s : DscState) (c : Ctx)
    (j : Nat) (hj : j ≠ q) : keepsFrom s (fireBlock pub q s c).1 j := by
  rcases fireBlock_state pub q s c with h | h <;> rw [h]
  · exact keepsFrom_rfl s j
  · exact ⟨rfl, rfl, rfl, rfl, rfl, rfl, rfl, rfl, rfl, rfl,
      rfl, rfl, rfl, upd_ne _ _ _ _ hj⟩

theorem processPartition_keeps (pub : Nat → Bool) (q : Nat)
    (sc : DscState × Ctx) (j : Nat) (hj : j ≠ q) :
    keepsFrom sc.1 (processPartition pub q sc).1 j := by
  obtain ⟨s, c⟩ := sc
  unfold processPartition
  by_cases hd : s.disabled q
  · simp only [hd, if_true]
    exact keepsFrom_rfl s j
  · simp only [hd, Bool.false_eq_true, if_false]
    set sc1 := armedBlock pub q s c with hsc1
    set sc2 := exitDelayBlock pub q sc1.1 sc1.2 with hsc2
    set sc3 := alarmBlock pub q sc2.1 sc2.2 with hsc3
    set s4 := if sc3.1.armedChanged q then
      { sc3.1 with armedChanged := upd sc3.1.armedChanged q false }
      else sc3.1 with hs4
    have k1 : keepsFrom s sc1.1 j := by
      rw [hsc1]
      exact armedBlock_keeps pub q s c j hj
    have k2 : keepsFrom sc1.1 sc2.1 j := by
      rw [hsc2]
      exact exitDelayBlock_keeps pub q sc1.1 sc1.2 j hj
    have k3 : keepsFrom sc2.1 sc3.1 j := by
      rw [hsc3]
      exact alarmBlock_keeps pub q sc2.1 sc2.2 j hj
    have k4 : keepsFrom sc3.1 s4 j := by
      rw [hs4]
      by_cases ha : sc3.1.armedChanged q
      · simp only [ha, if_true]
        exact ⟨rfl, rfl, rfl, rfl, rfl, rfl, rfl, rfl, rfl, rfl,
          upd_ne _ _ _ _ hj, rfl, rfl, rfl⟩
      · simp only [ha, Bool.false_eq_true, if_false]
        exact keepsFrom_rfl sc3.1 j
    have k5 : keepsFrom s4 (fireBlock pub q s4 sc3.2).1 j :=
      fireBlock_keeps pub q s4 sc3.2 j hj
    exact keepsFrom_trans
      (keepsFrom_trans (keepsFrom_trans (keepsFrom_trans k1 k2) k3) k4) k5

theorem foldPart_keeps (pub : Nat → Bool) (qs : List Nat)
    (sc : DscState × Ctx) (j : Nat) (hj : ∀ q ∈ qs, j ≠ q) :
    keepsFrom sc.1 (foldPart pub qs sc).1 j := by
  induction qs generalizing sc with
  | nil => exact keepsFrom_rfl sc.1 j
  | cons q qs ih =>
    have h1 : keepsFrom sc.1 (processPartition pub q sc).1 j :=
      processPartition_keeps pub q sc j (hj q (List.mem_cons_self _ _))
    have h2 := ih (processPartition pub q sc)
      (fun q' hq' => hj q' (List.mem_cons_of_mem _ hq'))
    exact keepsFrom_trans h1 h2

theorem countTP_appendEv (evs : List Ev) (t0 t : Topic) (pl pl' : String)
    (r ok : Bool) (ht : t0 ≠ t) :
    countTP (evs ++ [⟨t0, pl, r, ok⟩]) t pl' = countTP evs t pl' := by
  rw [countTP_append]
  simp [countTP, ht]

theorem processPartition_count (pub : Nat → Bool) (q : Nat)
    (sc : DscState × Ctx) (t : Topic) (pl : String)
    (h1 : Topic.part q ≠ t) (h2 : Topic.fire q ≠ t) :
    countTP (processPartition pub q sc).2.evs t pl = countTP sc.2.evs t pl := by
  obtain ⟨s, c⟩ := sc
  unfold processPartition
  by_cases hd : s.disabled q
  · simp only [hd, if_true]
  · simp only [hd, Bool.false_eq_true, if_false]
    set sc1 := armedBlock pub q s c with hsc1
    set sc2 := exitDelayBlock pub q sc1.1 sc1.2 with hsc2
    set sc3 := alarmBlock pub q sc2.1 sc2.2 with hsc3
    set s4 := if sc3.1.armedChanged q then
      { sc3.1 with armedChanged := upd sc3.1.armedChanged q false }
      else sc3.1 with hs4
    have e4 : countTP (fireBlock pub q s4 sc3.2).2.evs t pl =
        countTP sc3.2.evs t pl := by
      rcases fireBlock_ctx pub q s4 sc3.2 with h | ⟨pl4, h⟩ <;> rw [h]
      exact countTP_appendEv _ _ _ _ _ _ _ h2
    have e3 : countTP sc3.2.evs t pl = countTP sc2.2.evs t pl := by
      rw [hsc3]
      rcases alarmBlock_ctx pub q sc2.1 sc2.2 with h | ⟨pl3, h⟩ <;> rw [h]
      exact countTP_appendEv _ _ _ _ _ _ _ h1
    have e2 : countTP sc2.2.evs t pl = countTP sc1.2.evs t pl := by
      rw [hsc2]
      rcases exitDelayBlock_ctx pub q sc1.1 sc1.2 with h | ⟨pl2, h⟩ <;> rw [h]
      exact countTP_appendEv _ _ _ _ _ _ _ h1
    have e1 : countTP sc1.2.evs t pl = countTP c.evs t pl := by
      rw [hsc1]
      rcases armedBlock_ctx pub q s c with h | ⟨pl1, h⟩ <;> rw [h]
      exact countTP_appendEv _ _ _ _ _ _ _ h1
    rw [e4, e3, e2, e1]

theorem foldPart_count (pub : Nat → Bool) (qs : List Nat)
    (sc : DscState × Ctx) (t : Topic) (pl : String)
    (h : ∀ q ∈ qs, Topic.part q ≠ t ∧ Topic.fire q ≠ t) :
    countTP (foldPart pub qs sc).2.evs t pl = countTP sc.2.evs t pl := by
  induction qs generalizing sc with
  | nil => rfl
  | cons q qs ih =>
    have hq := h q (List.mem_cons_self _ _)
    have e1 := processPartition_count pub q sc t pl hq.1 hq.2
    have e2 := ih (processPartition pub q sc)
      (fun q' hq' => h q' (List.mem_cons_of_mem _ hq'))
    exact e2.trans e1

theorem countTP_single_hit (evs : List Ev) (t : Topic) (pl : String)
    (r ok : Bool) :
    countTP (evs ++ [⟨t, pl, r, ok⟩]) t pl = countTP evs t pl + 1 := by
  rw [countTP_append]
  simp [countTP]

/-- When both publishes succeed, a partition that just disarmed with a
simultaneous alarm restore has `disarmed` published twice by its
partition pass: once by the armed block, and once more by the alarm
block, whose `armedChanged` guard reads the marker the armed block
already cleared. -/
theorem processPartition_disarm_twice (p : Nat) (s : DscState) (c : Ctx)
    (hd : s.disabled p = false) (hac : s.armedChanged p = true)
    (ha : s.armed p = false) (hec : s.exitDelayChanged p = false)
    (hlc : s.alarmChanged p = true) (hal : s.alarm p = false) :
    countTP (processPartition (fun _ => true) p (s, c)).2.evs (Topic.part p)
      "disarmed" = countTP c.evs (Topic.part p) "disarmed" + 2 := by
  by_cases hfc : s.fireChanged p <;> by_cases hf : s.fire p <;>
    simp [processPartition, armedBlock, exitDelayBlock, alarmBlock, fireBlock,
      publishMQTTMessage, hd, hac, ha, hec, hlc, hal, hfc, hf, upd,
      countTP, List.filter_append]

/-- Lines 481-484 of `loop()`: after a partition pass the armed-changed
marker is cleared unconditionally, whether or not its publish (if any)
succeeded. -/
theorem processPartition_armedCleared (pub : Nat → Bool) (p : Nat)
    (s : DscState) (c : Ctx) (hd : s.disabled p = false) :
    (processPartition pub p (s, c)).1.armedChanged p = false := by
  unfold processPartition
  simp only [hd, Bool.false_eq_true, if_false]
  set sc1 := armedBlock pub p s c with hsc1
  set sc2 := exitDelayBlock pub p sc1.1 sc1.2 with hsc2
  set sc3 := alarmBlock pub p sc2.1 sc2.2 with hsc3
  set s4 := if sc3.1.armedChanged p then
    { sc3.1 with armedChanged := upd sc3.1.armedChanged p false }
    else sc3.1 with hs4
  have h4 : s4.armedChanged p = false := by
    rw [hs4]
    by_cases h : sc3.1.armedChanged p
    · simp [h, upd]
    · simp only [h, Bool.false_eq_true, if_false]
  rcases fireBlock_state pub p s4 sc3.2 with h | h <;> rw [h]
  · exact h4
  · simpa using h4

theorem sweep_count (pub : Nat → Bool) (tc : Nat → Topic) (stat : Nat → Nat)
    (L : List (Nat × Nat)) (w : SweepSt) (t : Topic) (pl : String)
    (h : ∀ n, tc n ≠ t) :
    countTP (sweep pub tc stat L w).ctx.evs t pl = countTP w.ctx.evs t pl := by
  induction L generalizing w with
  | nil => rfl
  | cons q L ih =>
    have hstep : countTP (bitStep pub tc stat w q).ctx.evs t pl =
        countTP w.ctx.evs t pl := by
      by_cases hc : (w.chg q.1).testBit q.2
      · by_cases hs : (stat q.1).testBit q.2 <;>
          simp only [bitStep, hc, hs, publishMQTTMessage, if_true,
            Bool.false_eq_true, if_false] <;>
          exact countTP_appendEv _ _ _ _ _ _ _ (h _)
      · simp [bitStep, hc]
    exact (ih (bitStep pub tc stat w q)).trans hstep

theorem zonesBlock_count (pub : Nat → Bool) (s : DscState) (c : Ctx)
    (t : Topic) (pl : String) (h : ∀ n, Topic.zone n ≠ t) :
    countTP (zonesBlock pub s c).2.evs t pl = countTP c.evs t pl := by
  unfold zonesBlock
  by_cases hz : s.openZonesStatusChanged
  · simp only [hz, if_true]
    set w := sweep pub Topic.zone s.openZones (bankPairs dscZones)
      ⟨s.openZonesChanged, true, c⟩ with hw
    have hc := sweep_count pub Topic.zone s.openZones (bankPairs dscZones)
      ⟨s.openZonesChanged, true, c⟩ t pl h
    by_cases ha : w.ar <;>
      simp only [ha, if_true, Bool.false_eq_true, if_false] <;>
      exact hc
  · simp [hz]

theorem pgmBlock_count (pub : Nat → Bool) (s : DscState) (c : Ctx)
    (t : Topic) (pl : String) (h : ∀ n, Topic.pgm n ≠ t) :
    countTP (pgmBlock pub s c).2.evs t pl = countTP c.evs t pl := by
  unfold pgmBlock
  by_cases hz : s.pgmOutputsStatusChanged
  · simp only [hz, if_true]
    set w := sweep pub Topic.pgm s.pgmOutputs (bankPairs 2)
      ⟨s.pgmOutputsChanged, true, c⟩ with hw
    have hc := sweep_count pub Topic.pgm s.pgmOutputs (bankPairs 2)
      ⟨s.pgmOutputsChanged, true, c⟩ t pl h
    by_cases ha : w.ar <;>
      simp only [ha, if_true, Bool.false_eq_true, if_false] <;>
      exact hc
  · simp [hz]

theorem foldPart_cons (pub : Nat → Bool) (q : Nat) (qs : List Nat)
    (sc : DscState × Ctx) :
    foldPart pub (q :: qs) sc = foldPart pub qs (processPartition pub q sc) :=
  rfl

theorem foldPart_append (pub : Nat → Bool) (A B : List Nat)
    (sc : DscState × Ctx) :
    foldPart pub (A ++ B) sc = foldPart pub B (foldPart pub A sc) := by
  simp [foldPart, List.foldl_append]

/-- The state of one partition on which claim C1's scenario rests:
enabled, armed-changed with armed now false, alarm-changed with alarm now
false, and no pending exit-delay change. -/
def disarmRestoreHyp (s : DscState) (p : Nat) : Prop :=
  s.disabled p = false ∧ s.armedChanged p = true ∧ s.armed p = false ∧
  s.exitDelayChanged p = false ∧ s.alarmChanged p = true ∧ s.alarm p = false

theorem disarmRestoreHyp_of_keeps {s s' : DscState} {p : Nat}
    (hk : keepsFrom s s' p) (h : disarmRestoreHyp s p) :
    disarmRestoreHyp s' p := by
  obtain ⟨a1, a2, a3, a4, a5, a6, a7, a8, a9, a10, a11, a12, a13, a14⟩ := hk
  obtain ⟨b1, b2, b3, b4, b5, b6⟩ := h
  refine ⟨?_, ?_, ?_, ?_, ?_, ?_⟩
  · rw [congrFun a1 p]; exact b1
  · rw [a11]; exact b2
  · rw [congrFun a2 p]; exact b3
  · rw [a12]; exact b4
  · rw [a13]; exact b5
  · rw [congrFun a6 p]; exact b6

theorem foldPart_range8_count (p : Nat) (hp : p < 8) (sc : DscState × Ctx)
    (hyp : disarmRestoreHyp sc.1 p) :
    countTP (foldPart (fun _ => true) (List.range 8) sc).2.evs (Topic.part p)
      "disarmed" = countTP sc.2.evs (Topic.part p) "disarmed" + 2 := by
  have hmain : ∀ (A B : List Nat), List.range 8 = A ++ p :: B →
      (∀ q ∈ A, p ≠ q) → (∀ q ∈ B, Topic.part q ≠ Topic.part p ∧
        Topic.fire q ≠ Topic.part p) →
      (∀ q ∈ A, Topic.part q ≠ Topic.part p ∧
        Topic.fire q ≠ Topic.part p) →
      countTP (foldPart (fun _ => true) (List.range 8) sc).2.evs (Topic.part p)
        "disarmed" = countTP sc.2.evs (Topic.part p) "disarmed" + 2 := by
    intro A B hAB hA hB hA2
    rw [hAB, foldPart_append, foldPart_cons]
    set scA := foldPart (fun _ => true) A sc with hscA
    have hkeep : keepsFrom sc.1 scA.1 p := foldPart_keeps _ A sc p hA
    have hypA : disarmRestoreHyp scA.1 p := disarmRestoreHyp_of_keeps hkeep hyp
    obtain ⟨b1, b2, b3, b4, b5, b6⟩ := hypA
    have h2 : countTP (processPartition (fun _ => true) p scA).2.evs
        (Topic.part p) "disarmed" =
        countTP scA.2.evs (Topic.part p) "disarmed" + 2 := by
      have := processPartition_disarm_twice p scA.1 scA.2 b1 b2 b3 b4 b5 b6
      simpa using this
    rw [foldPart_count _ B _ _ _ hB, h2,
      foldPart_count _ A sc _ _ hA2]
  interval_cases p
  · exact hmain [] [1, 2, 3, 4, 5, 6, 7] rfl (by decide)
      (by decide) (by decide)
  · exact hmain [0] [2, 3, 4, 5, 6, 7] rfl (by decide)
      (by decide) (by decide)
  · exact hmain [0, 1] [3, 4, 5, 6, 7] rfl (by decide)
      (by decide) (by decide)
  · exact hmain [0, 1, 2] [4, 5, 6, 7] rfl (by decide)
      (by decide) (by decide)
  · exact hmain [0, 1, 2, 3] [5, 6, 7] rfl (by decide)
      (by decide) (by decide)
  · exact hmain [0, 1, 2, 3, 4] [6, 7] rfl (by decide)
      (by decide) (by decide)
  · exact hmain [0, 1, 2, 3, 4, 5] [7] rfl (by decide)
      (by decide) (by decide)
  · exact hmain [0, 1, 2, 3, 4, 5, 6] [] rfl (by decide)
      (by decide) (by decide)

/-- C1, counterexample to the claim as stated: a concrete partition with
the alarm-changed marker set (alarm now false) and the armed-changed
marker set (armed now false) — with every publish succeeding — has
`disarmed` published to its partition topic twice in the scan tick, not
exactly once: the armed block's successful publish clears the
armed-changed marker before the alarm block tests it. -/
theorem claimC1_counterexample :
    ({ quietState with
        statusChanged := true
        armedChanged := fun i => decide (i = 0)
        alarmChanged := fun i => decide (i = 0) } : DscState).alarmChanged 0 =
        true ∧
    ({ quietState with
        statusChanged := true
        armedChanged := fun i => decide (i = 0)
        alarmChanged := fun i => decide (i = 0) } : DscState).alarm 0 = false ∧
    ({ quietState with
        statusChanged := true
        armedChanged := fun i => decide (i = 0)
        alarmChanged := fun i => decide (i = 0) } : DscState).armedChanged 0 =
        true ∧
    ({ quietState with
        statusChanged := true
        armedChanged := fun i => decide (i = 0)
        alarmChanged := fun i => decide (i = 0) } : DscState).armed 0 = false ∧
    ¬(countTP (loopScan (fun _ => true)
        { quietState with
            statusChanged := true
            armedChanged := fun i => decide (i = 0)
            alarmChanged := fun i => decide (i = 0) } ctx0).2.evs
        (Topic.part 0) "disarmed" = 1) := by
  refine ⟨rfl, rfl, rfl, rfl, ?_⟩
  decide

/-- C1 (amended): for every partition `p` whose alarm-changed marker is
set with alarm now false and whose armed-changed marker is set with armed
now false (no exit-delay change pending), a scan tick in which every
publish succeeds publishes `disarmed` to that partition's topic exactly
TWICE: the armed block publishes it and clears the marker, and the alarm
block — which suppresses `disarmed` only while the armed-changed marker
is still set, i.e. only when the armed publish failed — publishes it
again. -/
theorem claimC1_theorem (s : DscState) (p : Nat) (hp : p < 8)
    (hst : s.statusChanged = true) (hd : s.disabled p = false)
    (hac : s.armedChanged p = true) (ha : s.armed p = false)
    (hec : s.exitDelayChanged p = false) (hlc : s.alarmChanged p = true)
    (hal : s.alarm p = false) :
    countTP (loopScan (fun _ => true) s ctx0).2.evs (Topic.part p)
      "disarmed" = 2 := by
  have hyp0 : disarmRestoreHyp s p := ⟨hd, hac, ha, hec, hlc, hal⟩
  have hkb : ∀ (s' : DscState) (c' : Ctx), disarmRestoreHyp s' p →
      disarmRestoreHyp (keybusBlock (fun _ => true) s' c').1 p := by
    intro s' c' h
    rcases keybusBlock_state (fun _ => true) s' c' with hh | hh <;> rw [hh] <;>
      exact h
  have htb : ∀ (s' : DscState) (c' : Ctx), disarmRestoreHyp s' p →
      disarmRestoreHyp (troubleBlock (fun _ => true) s' c').1 p := by
    intro s' c' h
    rcases troubleBlock_state (fun _ => true) s' c' with hh | hh <;> rw [hh] <;>
      exact h
  have hach : ∀ (sc : DscState × Ctx), disarmRestoreHyp sc.1 p →
      disarmRestoreHyp (if sc.1.accessCodePrompt then
        ({ sc.1 with accessCodePrompt := false },
          pushWrite sc.2 ⟨sc.1.writePartition, Tok.accessCode⟩)
        else sc).1 p := by
    intro sc h
    by_cases hacp : sc.1.accessCodePrompt
    · simp only [hacp, if_true]
      exact h
    · simp only [hacp, Bool.false_eq_true, if_false]
      exact h
  have ctb : ∀ (s' : DscState) (c' : Ctx),
      countTP (troubleBlock (fun _ => true) s' c').2.evs (Topic.part p)
        "disarmed" = countTP c'.evs (Topic.part p) "disarmed" := by
    intro s' c'
    rcases troubleBlock_ctx (fun _ => true) s' c' with hh | ⟨pl', hh⟩ <;> rw [hh]
    exact countTP_appendEv _ _ _ _ _ _ _ (by simp)
  have cac : ∀ (sc : DscState × Ctx),
      countTP (if sc.1.accessCodePrompt then
        ({ sc.1 with accessCodePrompt := false },
          pushWrite sc.2 ⟨sc.1.writePartition, Tok.accessCode⟩)
        else sc).2.evs (Topic.part p) "disarmed" =
      countTP sc.2.evs (Topic.part p) "disarmed" := by
    intro sc
    by_cases hacp : sc.1.accessCodePrompt <;>
      simp [hacp, pushWrite]
  have ckb : ∀ (s' : DscState) (c' : Ctx),
      countTP (keybusBlock (fun _ => true) s' c').2.evs (Topic.part p)
        "disarmed" = countTP c'.evs (Topic.part p) "disarmed" := by
    intro s' c'
    rcases keybusBlock_ctx (fun _ => true) s' c' with hh | ⟨pl', hh⟩ <;> rw [hh]
    exact countTP_appendEv _ _ _ _ _ _ _ (by simp)
  unfold loopScan
  simp only [hst, if_true]
  rw [pgmBlock_count (fun _ => true) _ _ (Topic.part p) "disarmed"
    (fun n => by simp)]
  rw [zonesBlock_count (fun _ => true) _ _ (Topic.part p) "disarmed"
    (fun n => by simp)]
  have hrange : dscPartitions = 8 := rfl
  rw [hrange]
  rw [foldPart_range8_count p hp _ ?hyp]
  case hyp =>
    apply htb
    apply hach
    apply hkb
    by_cases hb : s.bufferOverflow <;>
      simp only [hb, if_true, Bool.false_eq_true, if_false] <;>
      exact hyp0
  rw [ctb, cac, ckb]
  rfl

/-- Witness for C1's amended theorem at a concrete state. -/
theorem claimC1_witness :
    countTP (loopScan (fun _ => true)
      { quietState with
          statusChanged := true
          armedChanged := fun i => decide (i = 0)
          alarmChanged := fun i => decide (i = 0) } ctx0).2.evs
      (Topic.part 0) "disarmed" = 2 :=
  claimC1_theorem
    { quietState with
        statusChanged := true
        armedChanged := fun i => decide (i = 0)
        alarmChanged := fun i => decide (i = 0) } 0
    (by decide) rfl rfl rfl rfl rfl rfl rfl

/-- C2, counterexample to the claim as stated: the not-ready check of
`mqttCallback` exempts the DISARM code `'D'`, not the panic code `'P'`.
A `"D"` command for a not-ready partition (default partition, index 1,
armed) is NOT rejected: the disarm write token is issued and neither the
armed-state changed marker nor the status-changed marker is set. -/
theorem claimC2_counterexample :
    getC ['D'] (parseTarget ['D']).2 ≠ 'P' ∧
    ({ quietState with
        ready := fun _ => false
        armed := fun i => decide (i = 1) } : DscState).ready
      (parseTarget ['D']).1 = false ∧
    (mqttCallback { quietState with
        ready := fun _ => false
        armed := fun i => decide (i = 1) } ['D']).2 ≠ [] ∧
    (mqttCallback { quietState with
        ready := fun _ => false
        armed := fun i => decide (i = 1) } ['D']).1.statusChanged = false ∧
    (mqttCallback { quietState with
        ready := fun _ => false
        armed := fun i => decide (i = 1) } ['D']).1.armedChanged
      (parseTarget ['D']).1 = false := by
  decide

/-- C2 (amended): for every inbound command whose command code is not the
DISARM code `'D'`, if the target partition's `ready` flag is false at
parse time, no guarded write token is issued (for `'P'` the panic write
has already been issued before the check and is the only write),
`writePartition` is untouched, and both the partition's armed-state
changed marker and the top-level status-changed marker are set. -/
theorem claimC2_theorem (s : DscState) (payload : List Char)
    (hlen : (parseTarget payload).2 < payload.length)
    (hcmd : getC payload (parseTarget payload).2 ≠ 'D')
    (hready : s.ready (parseTarget payload).1 = false) :
    (mqttCallback s payload).2 =
      (if getC payload (parseTarget payload).2 = 'P' then
        [⟨s.writePartition, Tok.key 'p'⟩] else []) ∧
    (mqttCallback s payload).1.armedChanged (parseTarget payload).1 = true ∧
    (mqttCallback s payload).1.statusChanged = true ∧
    (mqttCallback s payload).1.writePartition = s.writePartition := by
  refine ⟨?_, ?_, ?_, ?_⟩ <;>
    simp [mqttCallback, hcmd, hready, upd]

/-- Witness for C2's amended theorem: command `"X"` with the default
partition not ready. -/
theorem claimC2_witness :
    (mqttCallback { quietState with ready := fun _ => false } ['X']).2 =
      (if getC ['X'] (parseTarget ['X']).2 = 'P' then
        [⟨({ quietState with ready := fun _ => false } : DscState).writePartition,
          Tok.key 'p'⟩] else []) ∧
    (mqttCallback { quietState with ready := fun _ => false } ['X']).1.armedChanged
      (parseTarget ['X']).1 = true ∧
    (mqttCallback { quietState with ready := fun _ => false } ['X']).1.statusChanged =
      true ∧
    (mqttCallback { quietState with ready := fun _ => false } ['X']).1.writePartition =
      ({ quietState with ready := fun _ => false } : DscState).writePartition :=
  claimC2_theorem { quietState with ready := fun _ => false } ['X']
    (by decide) (by decide) rfl

/-- C3 (code bug witnessed on the model): a payload `"D"` with no leading
digit is parsed with partition index `DefaultPartitionId = 1`, which is
the 0-based index of 1-based partition 2, not partition 1.  With 1-based
partition 1 (index 0) disarmed and in no delay — so the disarm guard
evaluated against partition 1 would reject — the code still accepts,
evaluating the guard against index 1 and issuing the access-code write
tagged with 1-based partition 2. -/
theorem claimC3_theorem :
    DefaultPartitionId = 1 ∧
    (parseTarget ['D']).1 = 1 ∧
    ({ quietState with armed := fun i => decide (i = 1) } : DscState).armed 0 =
      false ∧
    ({ quietState with armed := fun i => decide (i = 1) } : DscState).exitDelay
      0 = false ∧
    ({ quietState with armed := fun i => decide (i = 1) } : DscState).entryDelay
      0 = false ∧
    (mqttCallback { quietState with armed := fun i => decide (i = 1) }
      ['D']).2 = [⟨2, Tok.accessCode⟩] ∧
    (mqttCallback { quietState with armed := fun i => decide (i = 1) }
      ['D']).1.writePartition = 2 := by
  decide

/-- C9, counterexample to the claim as stated: an unrecognized command
code is NOT always dropped with no state change — when the target
partition is not ready, the not-ready compensation still fires, setting
the armed-changed and status-changed markers. -/
theorem claimC9_counterexample :
    (∀ cc ∈ (['S', 'A', 'N', 'D', 'T', 'P'] : List Char),
      getC ['X'] (parseTarget ['X']).2 ≠ cc) ∧
    ({ quietState with ready := fun _ => false } : DscState).statusChanged =
      false ∧
    (mqttCallback { quietState with ready := fun _ => false }
      ['X']).1.statusChanged = true ∧
    (mqttCallback { quietState with ready := fun _ => false }
      ['X']).1.armedChanged (parseTarget ['X']).1 = true := by
  decide

/-- C9 (amended): for every inbound payload long enough to read whose
command code matches none of `'S' 'A' 'N' 'D' 'T' 'P'`, no write token is
issued; if the target partition is ready the Entity Model state is not
mutated at all, and if it is not ready exactly the not-ready compensation
runs (armed-changed marker of the target partition and the top-level
status-changed marker are set). -/
theorem claimC9_theorem (s : DscState) (payload : List Char)
    (hlen : (parseTarget payload).2 < payload.length)
    (hS : getC payload (parseTarget payload).2 ≠ 'S')
    (hA : getC payload (parseTarget payload).2 ≠ 'A')
    (hN : getC payload (parseTarget payload).2 ≠ 'N')
    (hD : getC payload (parseTarget payload).2 ≠ 'D')
    (hT : getC payload (parseTarget payload).2 ≠ 'T')
    (hP : getC payload (parseTarget payload).2 ≠ 'P') :
    (mqttCallback s payload).2 = [] ∧
    (s.ready (parseTarget payload).1 = true → (mqttCallback s payload).1 = s) ∧
    (s.ready (parseTarget payload).1 = false →
      (mqttCallback s payload).1 =
        { s with
            armedChanged := upd s.armedChanged (parseTarget payload).1 true
            statusChanged := true }) := by
  by_cases hr : s.ready (parseTarget payload).1 <;>
    refine ⟨?_, ?_, ?_⟩ <;>
    simp [mqttCallback, hS, hA, hN, hD, hT, hP, hr]

/-- Witness for C9's amended theorem: command `"X"` against a ready
partition and the claim's conclusions at that input. -/
theorem claimC9_witness :
    (mqttCallback quietState ['X']).2 = [] ∧
    (quietState.ready (parseTarget ['X']).1 = true →
      (mqttCallback quietState ['X']).1 = quietState) ∧
    (quietState.ready (parseTarget ['X']).1 = false →
      (mqttCallback quietState ['X']).1 =
        { quietState with
            armedChanged := upd quietState.armedChanged (parseTarget ['X']).1
              true
            statusChanged := true }) :=
  claimC9_theorem quietState ['X'] (by decide) (by decide) (by decide)
    (by decide) (by decide) (by decide) (by decide)

/-- C10 (confirmed): a `'P'` command for a not-ready partition both
issues the panic write `'p'` (written before the readiness check, at the
current `writePartition`) and still triggers the not-ready compensation:
the partition's armed-changed marker and the status-changed marker are
set by the same message. -/
theorem claimC10_theorem (s : DscState) (payload : List Char)
    (hlen : (parseTarget payload).2 < payload.length)
    (hcmd : getC payload (parseTarget payload).2 = 'P')
    (hready : s.ready (parseTarget payload).1 = false) :
    (mqttCallback s payload).2 = [⟨s.writePartition, Tok.key 'p'⟩] ∧
    (mqttCallback s payload).1.armedChanged (parseTarget payload).1 = true ∧
    (mqttCallback s payload).1.statusChanged = true := by
  have h1 : ('P' : Char) ≠ 'D' := by decide
  refine ⟨?_, ?_, ?_⟩ <;>
    simp [mqttCallback, hcmd, h1, hready, upd]

/-- Witness for C10 at the concrete payload `"P"` with the default
partition not ready. -/
theorem claimC10_witness :
    (mqttCallback { quietState with ready := fun _ => false } ['P']).2 =
      [⟨({ quietState with ready := fun _ => false } : DscState).writePartition,
        Tok.key 'p'⟩] ∧
    (mqttCallback { quietState with ready := fun _ => false }
      ['P']).1.armedChanged (parseTarget ['P']).1 = true ∧
    (mqttCallback { quietState with ready := fun _ => false }
      ['P']).1.statusChanged = true :=
  claimC10_theorem { quietState with ready := fun _ => false } ['P']
    (by decide) (by decide) rfl

/-- C5 (confirmed): for a partition with its armed-changed marker set,
the armed block publishes exactly the payload computed by the
specification's precedence chain (`specArmedPayload`): `armed_night` when
(`armedAway` or `armedStay`) and `noEntryDelay`, else `armed_away` when
`armedAway`, else `armed_home` when `armedStay`, else nothing (and the
marker is still cleared, i.e. treated as success); `disarmed` when not
armed.  In particular armed+armedAway+noEntryDelay yields `armed_night`,
never `armed_away`. -/
theorem claimC5_theorem (pub : Nat → Bool) (p : Nat) (s : DscState) (c : Ctx)
    (hac : s.armedChanged p = true) :
    (armedBlock pub p s c).2.evs = c.evs ++
      ((specArmedPayload (s.armed p) (s.armedAway p) (s.armedStay p)
        (s.noEntryDelay p)).elim []
        (fun pl => [⟨Topic.part p, pl, true, pub c.k⟩])) ∧
    (specArmedPayload (s.armed p) (s.armedAway p) (s.armedStay p)
      (s.noEntryDelay p) = none →
      (armedBlock pub p s c).1.armedChanged p = false) := by
  by_cases ha : s.armed p <;> by_cases haw : s.armedAway p <;>
    by_cases hst : s.armedStay p <;> by_cases hne : s.noEntryDelay p <;>
    by_cases hk : pub c.k <;>
    refine ⟨?_, ?_⟩ <;>
    simp [armedBlock, specArmedPayload, publishMQTTMessage, hac, ha, haw,
      hst, hne, hk, upd]

/-- Witness for C5 at a concrete armed+away+noEntryDelay partition:
the armed block publishes `armed_night`. -/
theorem claimC5_witness :
    (armedBlock (fun _ => true) 0
      { quietState with
          armedChanged := fun i => decide (i = 0)
          armed := fun i => decide (i = 0)
          armedAway := fun i => decide (i = 0)
          noEntryDelay := fun i => decide (i = 0) } ctx0).2.evs =
      ctx0.evs ++
      ((specArmedPayload true true false true).elim []
        (fun pl => [⟨Topic.part 0, pl, true, (fun _ => true) ctx0.k⟩])) ∧
    (specArmedPayload true true false true = none →
      (armedBlock (fun _ => true) 0
        { quietState with
            armedChanged := fun i => decide (i = 0)
            armed := fun i => decide (i = 0)
            armedAway := fun i => decide (i = 0)
            noEntryDelay := fun i => decide (i = 0) } ctx0).1.armedChanged 0 =
        false) :=
  claimC5_theorem (fun _ => true) 0
    { quietState with
        armedChanged := fun i => decide (i = 0)
        armed := fun i => decide (i = 0)
        armedAway := fun i => decide (i = 0)
        noEntryDelay := fun i => decide (i = 0) } ctx0 rfl

theorem mem_bankPairs (n g b : Nat) (hg : g < n) (hb : b < 8) :
    (g, b) ∈ bankPairs n := by
  simp only [bankPairs, List.mem_flatMap, List.mem_map, List.mem_range]
  exact ⟨g, hg, b, hb, rfl⟩

/-- C8 (confirmed): a zone bank bit `(g, b)` (with `g < 8`, `b < 8`) whose
changed marker is set is visited by the zone sweep, and its publish
targets `Topic.zone (8 * g + b + 1)` — whose rendered topic string is the
zone topic template suffixed with the plain decimal number, no padding —
with payload `"1"` exactly when the open-zone bit is set, `"0"`
otherwise.  In particular bank 1 bit 0 renders `.../zone9` and bank 7
bit 7 renders `.../zone64`. -/
theorem claimC8_theorem (pub : Nat → Bool) (stat : Nat → Nat) (w : SweepSt)
    (g b : Nat) (hg : g < 8) (hb : b < 8)
    (hc : (w.chg g).testBit b = true) :
    (g, b) ∈ bankPairs dscZones ∧
    (bitStep pub Topic.zone stat w (g, b)).ctx.evs = w.ctx.evs ++
      [⟨Topic.zone (8 * g + b + 1),
        if (stat g).testBit b then "1" else "0", true, pub w.ctx.k⟩] ∧
    (Topic.zone (8 * g + b + 1)).str =
      MQTTZoneTopicStr ++ Nat.repr (8 * g + b + 1) ∧
    (Topic.zone (8 * 1 + 0 + 1)).str = "alarmsys/get/zone9" ∧
    (Topic.zone (8 * 7 + 7 + 1)).str = "alarmsys/get/zone64" := by
  have hidx : b + 1 + g * 8 = 8 * g + b + 1 := by omega
  refine ⟨mem_bankPairs dscZones g b hg hb, ?_, rfl, by decide, by decide⟩
  by_cases hs : (stat g).testBit b <;>
    simp [bitStep, hc, hs, publishMQTTMessage, bitIdx, hidx]

/-- Witness for C8 at bank 1, bit 0 (zone 9) with the bit open. -/
theorem claimC8_witness :
    ((1, 0) ∈ bankPairs dscZones ∧
    (bitStep (fun _ => true) Topic.zone (fun gg => if gg = 1 then 1 else 0)
      ⟨fun gg => if gg = 1 then 1 else 0, true, ctx0⟩ (1, 0)).ctx.evs =
      (⟨fun gg => if gg = 1 then 1 else 0, true, ctx0⟩ : SweepSt).ctx.evs ++
      [⟨Topic.zone (8 * 1 + 0 + 1),
        if ((fun gg => if gg = 1 then 1 else 0) 1 : Nat).testBit 0 then "1"
          else "0", true,
        (fun _ => true) (⟨fun gg => if gg = 1 then 1 else 0, true,
          ctx0⟩ : SweepSt).ctx.k⟩] ∧
    (Topic.zone (8 * 1 + 0 + 1)).str =
      MQTTZoneTopicStr ++ Nat.repr (8 * 1 + 0 + 1) ∧
    (Topic.zone (8 * 1 + 0 + 1)).str = "alarmsys/get/zone9" ∧
    (Topic.zone (8 * 7 + 7 + 1)).str = "alarmsys/get/zone64") :=
  claimC8_theorem (fun _ => true) (fun gg => if gg = 1 then 1 else 0)
    ⟨fun gg => if gg = 1 then 1 else 0, true, ctx0⟩ 1 0
    (by decide) (by decide) (by decide)

theorem mqttHandle_timer_pos (i : MqttIn) (s : MqttSt)
    (h : s.mqttActionTimer ≠ 0) :
    (mqttHandle i s).1.mqttActionTimer = s.mqttActionTimer ∧
    (mqttHandle i s).2 = [] := by
  by_cases hd : i.drop <;> by_cases hc : s.connected <;>
    simp [mqttHandle, hd, hc, h]

theorem advanceTimers_le (ms : Nat) (s : MqttSt) :
    (advanceTimers ms s).mqttActionTimer ≤ s.mqttActionTimer ∧
    s.mqttActionTimer ≤ (advanceTimers ms s).mqttActionTimer + 1 ∧
    (s.mqttActionTimer = 0 → (advanceTimers ms s).mqttActionTimer = 0) := by
  by_cases hm : ms = s.previous <;>
    by_cases ht : s.mqttActionTimer = 0 <;>
    simp [advanceTimers, hm, ht] <;> omega

theorem runAttempts_zero (L : List MqttIn) (s : MqttSt)
    (h : L.length < s.mqttActionTimer) : runAttempts L s = 0 := by
  induction L generalizing s with
  | nil => rfl
  | cons i L ih =>
    have ht : s.mqttActionTimer ≠ 0 := by
      simp only [List.length_cons] at h
      omega
    obtain ⟨h1, h2⟩ := mqttHandle_timer_pos i s ht
    have hnoatt : (loopIter i s).2.contains MEv.connectAttempt = false := by
      simp [loopIter, h2]
    have hadv := (advanceTimers_le i.ms (mqttHandle i s).1).2.1
    have htimer : s.mqttActionTimer ≤ (loopIter i s).1.mqttActionTimer + 1 := by
      simp only [loopIter]
      rw [← h1]
      exact hadv
    have hlen : L.length < (loopIter i s).1.mqttActionTimer := by
      simp only [List.length_cons] at h
      omega
    rw [runAttempts, hnoatt, ih (loopIter i s).1 hlen]
    simp

/-- C7 (confirmed): while disconnected (or just dropped), a connect
attempt happens exactly when the retry timer is zero; a failed attempt
seeds the timer with the 2000 ms retry interval and does not subscribe; a
successful attempt subscribes, connects, and leaves the timer at zero;
`advanceTimers` decrements by at most one and never drives the timer
below zero (a zero timer stays zero); and from a timer of 2000 no connect
attempt occurs in any run of fewer than 2000 loop iterations. -/
theorem claimC7_theorem :
    (∀ (i : MqttIn) (s : MqttSt),
      ((mqttHandle i s).2.contains MEv.connectAttempt = true ↔
        ((s.connected = false ∨ i.drop = true) ∧ s.mqttActionTimer = 0))) ∧
    (∀ (i : MqttIn) (s : MqttSt),
      (s.connected = false ∨ i.drop = true) → s.mqttActionTimer = 0 →
      i.connectOk = false →
      (mqttHandle i s).1.mqttActionTimer = ConnectBrokerRetryIntervalMs ∧
      (mqttHandle i s).2.contains MEv.subscribe = false) ∧
    (∀ (i : MqttIn) (s : MqttSt),
      (s.connected = false ∨ i.drop = true) → s.mqttActionTimer = 0 →
      i.connectOk = true →
      (mqttHandle i s).2.contains MEv.subscribe = true ∧
      (mqttHandle i s).1.mqttActionTimer = 0 ∧
      (mqttHandle i s).1.connected = true) ∧
    (∀ (ms : Nat) (s : MqttSt),
      (advanceTimers ms s).mqttActionTimer ≤ s.mqttActionTimer ∧
      s.mqttActionTimer ≤ (advanceTimers ms s).mqttActionTimer + 1 ∧
      (s.mqttActionTimer = 0 → (advanceTimers ms s).mqttActionTimer = 0)) ∧
    (∀ (L : List MqttIn) (s : MqttSt),
      s.mqttActionTimer = ConnectBrokerRetryIntervalMs → L.length < 2000 →
      runAttempts L s = 0) := by
  refine ⟨?_, ?_, ?_, ?_, ?_⟩
  · intro i s
    by_cases hd : i.drop <;> by_cases hc : s.connected <;>
      by_cases ht : s.mqttActionTimer = 0 <;>
      by_cases hk : i.connectOk <;>
      simp [mqttHandle, hd, hc, ht, hk]
  · intro i s hdisc ht hk
    rcases hdisc with hd | hd <;>
      by_cases hdr : i.drop <;> simp [mqttHandle, hd, hdr, ht, hk]
  · intro i s hdisc ht hk
    rcases hdisc with hd | hd <;>
      by_cases hdr : i.drop <;> simp [mqttHandle, hd, hdr, ht, hk]
  · intro ms s
    exact advanceTimers_le ms s
  · intro L s hs hl
    refine runAttempts_zero L s ?_
    rw [hs]
    exact hl

/-- Witness for C7: each part of the supervisor contract applied at
concrete inputs (failed attempt, successful attempt, timer advance, and a
1-iteration run from a full 2000 ms timer). -/
theorem claimC7_witness :
    ((mqttHandle ⟨false, false, 1⟩ ⟨false, 0, 0⟩).2.contains
        MEv.connectAttempt = true ↔
      (((false : Bool) = false ∨ (false : Bool) = true) ∧ (0 : Nat) = 0)) ∧
    ((mqttHandle ⟨false, false, 1⟩ ⟨false, 0, 0⟩).1.mqttActionTimer =
        ConnectBrokerRetryIntervalMs ∧
      (mqttHandle ⟨false, false, 1⟩ ⟨false, 0, 0⟩).2.contains MEv.subscribe =
        false) ∧
    ((mqttHandle ⟨false, true, 1⟩ ⟨false, 0, 0⟩).2.contains MEv.subscribe =
        true ∧
      (mqttHandle ⟨false, true, 1⟩ ⟨false, 0, 0⟩).1.mqttActionTimer = 0 ∧
      (mqttHandle ⟨false, true, 1⟩ ⟨false, 0, 0⟩).1.connected = true) ∧
    ((advanceTimers 5 ⟨false, 7, 0⟩).mqttActionTimer ≤ 7 ∧
      (7 : Nat) ≤ (advanceTimers 5 ⟨false, 7, 0⟩).mqttActionTimer + 1 ∧
      ((7 : Nat) = 0 → (advanceTimers 5 ⟨false, 7, 0⟩).mqttActionTimer = 0)) ∧
    runAttempts [⟨false, true, 1⟩] ⟨false, 2000, 0⟩ = 0 :=
  ⟨claimC7_theorem.1 ⟨false, false, 1⟩ ⟨false, 0, 0⟩,
   claimC7_theorem.2.1 ⟨false, false, 1⟩ ⟨false, 0, 0⟩ (Or.inl rfl) rfl rfl,
   claimC7_theorem.2.2.1 ⟨false, true, 1⟩ ⟨false, 0, 0⟩ (Or.inl rfl) rfl rfl,
   claimC7_theorem.2.2.2.1 5 ⟨false, 7, 0⟩,
   claimC7_theorem.2.2.2.2 [⟨false, true, 1⟩] ⟨false, 2000, 0⟩ rfl
     (by decide)⟩

theorem zonesBlock_spec (pub : Nat → Bool) (s : DscState)
    (hz : s.openZonesStatusChanged = true) :
    ∃ E : List Ev,
      (zonesBlock pub s ctx0).2.evs = E ∧
      ((zonesBlock pub s ctx0).1.openZonesStatusChanged = false ↔
        E.all (fun e => e.ok) = true) ∧
      (∀ g b : Nat, g < 8 → b < 8 →
        (((s.openZonesChanged g).testBit b = true →
          ∃ ok : Bool,
            E.filter (fun e =>
              decide (e.topic = Topic.zone (b + 1 + g * 8))) =
              [⟨Topic.zone (b + 1 + g * 8),
                if (s.openZones g).testBit b then "1" else "0", true, ok⟩] ∧
            ((zonesBlock pub s ctx0).1.openZonesChanged g).testBit b =
              !ok) ∧
        ((s.openZonesChanged g).testBit b = false →
          ((zonesBlock pub s ctx0).1.openZonesChanged g).testBit b =
            false))) := by
  have htc : ∀ m n : Nat, Topic.zone m = Topic.zone n → m = n := by
    intro m n h
    injection h
  have hnd : (bankPairs dscZones).Nodup := by decide
  have hb8 : ∀ p ∈ bankPairs dscZones, p.2 < 8 := by decide
  obtain ⟨E, h1, h2, h3, h4, h5, h6⟩ := sweep_spec pub Topic.zone s.openZones
    htc (bankPairs dscZones) ⟨s.openZonesChanged, true, ctx0⟩ hnd hb8
  set w := sweep pub Topic.zone s.openZones (bankPairs dscZones)
    ⟨s.openZonesChanged, true, ctx0⟩ with hw
  have hevs : (zonesBlock pub s ctx0).2 = w.ctx := by
    unfold zonesBlock
    rw [← hw]
    simp only [hz, if_true]
    by_cases har : w.ar <;>
      simp only [har, if_true, Bool.false_eq_true, if_false]
  have hchg : (zonesBlock pub s ctx0).1.openZonesChanged = w.chg := by
    unfold zonesBlock
    rw [← hw]
    simp only [hz, if_true]
    by_cases har : w.ar <;>
      simp only [har, if_true, Bool.false_eq_true, if_false]
  have hsum : (zonesBlock pub s ctx0).1.openZonesStatusChanged = !w.ar := by
    unfold zonesBlock
    rw [← hw]
    simp only [hz, if_true]
    by_cases har : w.ar <;>
      simp only [har, if_true, Bool.false_eq_true, if_false, Bool.not_true,
        Bool.not_false]
  refine ⟨E, ?_, ?_, ?_⟩
  · rw [hevs, h1]
    rfl
  · rw [hsum, h3]
    simp
  · intro g b hg hb
    have hmem : (g, b) ∈ bankPairs dscZones := mem_bankPairs dscZones g b hg hb
    have hm := h5 (g, b) hmem
    constructor
    · intro hset
      obtain ⟨ok, hfil, hfin⟩ := hm.1 hset
      refine ⟨ok, hfil, ?_⟩
      rw [hchg]
      exact hfin
    · intro hclr
      have := (hm.2 hclr).2
      rw [hchg]
      exact this

theorem pgmBlock_spec (pub : Nat → Bool) (s : DscState)
    (hz : s.pgmOutputsStatusChanged = true) :
    ∃ E : List Ev,
      (pgmBlock pub s ctx0).2.evs = E ∧
      ((pgmBlock pub s ctx0).1.pgmOutputsStatusChanged = false ↔
        E.all (fun e => e.ok) = true) ∧
      (∀ g b : Nat, g < 2 → b < 8 →
        (((s.pgmOutputsChanged g).testBit b = true →
          ∃ ok : Bool,
            E.filter (fun e =>
              decide (e.topic = Topic.pgm (b + 1 + g * 8))) =
              [⟨Topic.pgm (b + 1 + g * 8),
                if (s.pgmOutputs g).testBit b then "1" else "0", true, ok⟩] ∧
            ((pgmBlock pub s ctx0).1.pgmOutputsChanged g).testBit b =
              !ok) ∧
        ((s.pgmOutputsChanged g).testBit b = false →
          ((pgmBlock pub s ctx0).1.pgmOutputsChanged g).testBit b =
            false))) := by
  have htc : ∀ m n : Nat, Topic.pgm m = Topic.pgm n → m = n := by
    intro m n h
    injection h
  have hnd : (bankPairs 2).Nodup := by decide
  have hb8 : ∀ p ∈ bankPairs 2, p.2 < 8 := by decide
  obtain ⟨E, h1, h2, h3, h4, h5, h6⟩ := sweep_spec pub Topic.pgm s.pgmOutputs
    htc (bankPairs 2) ⟨s.pgmOutputsChanged, true, ctx0⟩ hnd hb8
  set w := sweep pub Topic.pgm s.pgmOutputs (bankPairs 2)
    ⟨s.pgmOutputsChanged, true, ctx0⟩ with hw
  have hevs : (pgmBlock pub s ctx0).2 = w.ctx := by
    unfold pgmBlock
    rw [← hw]
    simp only [hz, if_true]
    by_cases har : w.ar <;>
      simp only [har, if_true, Bool.false_eq_true, if_false]
  have hchg : (pgmBlock pub s ctx0).1.pgmOutputsChanged = w.chg := by
    unfold pgmBlock
    rw [← hw]
    simp only [hz, if_true]
    by_cases har : w.ar <;>
      simp only [har, if_true, Bool.false_eq_true, if_false]
  have hsum : (pgmBlock pub s ctx0).1.pgmOutputsStatusChanged = !w.ar := by
    unfold pgmBlock
    rw [← hw]
    simp only [hz, if_true]
    by_cases har : w.ar <;>
      simp only [har, if_true, Bool.false_eq_true, if_false, Bool.not_true,
        Bool.not_false]
  refine ⟨E, ?_, ?_, ?_⟩
  · rw [hevs, h1]
    rfl
  · rw [hsum, h3]
    simp
  · intro g b hg hb
    have hmem : (g, b) ∈ bankPairs 2 := mem_bankPairs 2 g b hg hb
    have hm := h5 (g, b) hmem
    constructor
    · intro hset
      obtain ⟨ok, hfil, hfin⟩ := hm.1 hset
      refine ⟨ok, hfil, ?_⟩
      rw [hchg]
      exact hfin
    · intro hclr
      have := (hm.2 hclr).2
      rw [hchg]
      exact this

/-- C4 (confirmed): for a scan whose zone (resp. PGM) group summary flag
is set, the sweep attempts one publish per set changed bit; the summary
flag is cleared at the end of the sweep iff every attempted publish
succeeded; each set bit's marker ends cleared iff its own publish
succeeded (failed bits' markers remain set, succeeded bits' markers are
cleared), and untouched bits stay cleared. -/
theorem claimC4_theorem (pub : Nat → Bool) (s : DscState) :
    (s.openZonesStatusChanged = true →
      ∃ E : List Ev,
      (zonesBlock pub s ctx0).2.evs = E ∧
      ((zonesBlock pub s ctx0).1.openZonesStatusChanged = false ↔
        E.all (fun e => e.ok) = true) ∧
      (∀ g b : Nat, g < 8 → b < 8 →
        (((s : DscState).openZonesChanged g).testBit b = true →
          ∃ ok : Bool,
            E.filter (fun e =>
              decide (e.topic = Topic.zone (b + 1 + g * 8))) =
              [⟨Topic.zone (b + 1 + g * 8),
                if ((s : DscState).openZones g).testBit b then "1" else "0",
                true, ok⟩] ∧
            ((zonesBlock pub s ctx0).1.openZonesChanged g).testBit b =
              !ok) ∧
        (((s : DscState).openZonesChanged g).testBit b = false →
          ((zonesBlock pub s ctx0).1.openZonesChanged g).testBit b =
            false))) ∧
    (s.pgmOutputsStatusChanged = true →
      ∃ E : List Ev,
      (pgmBlock pub s ctx0).2.evs = E ∧
      ((pgmBlock pub s ctx0).1.pgmOutputsStatusChanged = false ↔
        E.all (fun e => e.ok) = true) ∧
      (∀ g b : Nat, g < 2 → b < 8 →
        (((s : DscState).pgmOutputsChanged g).testBit b = true →
          ∃ ok : Bool,
            E.filter (fun e =>
              decide (e.topic = Topic.pgm (b + 1 + g * 8))) =
              [⟨Topic.pgm (b + 1 + g * 8),
                if ((s : DscState).pgmOutputs g).testBit b then "1" else "0",
                true, ok⟩] ∧
            ((pgmBlock pub s ctx0).1.pgmOutputsChanged g).testBit b =
              !ok) ∧
        (((s : DscState).pgmOutputsChanged g).testBit b = false →
          ((pgmBlock pub s ctx0).1.pgmOutputsChanged g).testBit b =
            false))) :=
  ⟨fun hz => zonesBlock_spec pub s hz, fun hz => pgmBlock_spec pub s hz⟩

/-- Witness for C4: a concrete state with zone 9 changed open and PGM 2
changed closed, every publish succeeding. -/
theorem claimC4_witness :
    (∃ E : List Ev,
      (zonesBlock (fun _ => true) { quietState with
      openZonesStatusChanged := true
      pgmOutputsStatusChanged := true
      openZonesChanged := fun g => if g = 1 then 1 else 0
      openZones := fun g => if g = 1 then 1 else 0
      pgmOutputsChanged := fun g => if g = 0 then 2 else 0
      pgmOutputs := fun g => 0 } ctx0).2.evs = E ∧
      ((zonesBlock (fun _ => true) { quietState with
      openZonesStatusChanged := true
      pgmOutputsStatusChanged := true
      openZonesChanged := fun g => if g = 1 then 1 else 0
      openZones := fun g => if g = 1 then 1 else 0
      pgmOutputsChanged := fun g => if g = 0 then 2 else 0
      pgmOutputs := fun g => 0 } ctx0).1.openZonesStatusChanged = false ↔
        E.all (fun e => e.ok) = true) ∧
      (∀ g b : Nat, g < 8 → b < 8 →
        ((({ quietState with
      openZonesStatusChanged := true
      pgmOutputsStatusChanged := true
      openZonesChanged := fun g => if g = 1 then 1 else 0
      openZones := fun g => if g = 1 then 1 else 0
      pgmOutputsChanged := fun g => if g = 0 then 2 else 0
      pgmOutputs := fun g => 0 } : DscState).openZonesChanged g).testBit b = true →
          ∃ ok : Bool,
            E.filter (fun e =>
              decide (e.topic = Topic.zone (b + 1 + g * 8))) =
              [⟨Topic.zone (b + 1 + g * 8),
                if (({ quietState with
      openZonesStatusChanged := true
      pgmOutputsStatusChanged := true
      openZonesChanged := fun g => if g = 1 then 1 else 0
      openZones := fun g => if g = 1 then 1 else 0
      pgmOutputsChanged := fun g => if g = 0 then 2 else 0
      pgmOutputs := fun g => 0 } : DscState).openZones g).testBit b then "1" else "0",
                true, ok⟩] ∧
            ((zonesBlock (fun _ => true) { quietState with
      openZonesStatusChanged := true
      pgmOutputsStatusChanged := true
      openZonesChanged := fun g => if g = 1 then 1 else 0
      openZones := fun g => if g = 1 then 1 else 0
      pgmOutputsChanged := fun g => if g = 0 then 2 else 0
      pgmOutputs := fun g => 0 } ctx0).1.openZonesChanged g).testBit b =
              !ok) ∧
        ((({ quietState with
      openZonesStatusChanged := true
      pgmOutputsStatusChanged := true
      openZonesChanged := fun g => if g = 1 then 1 else 0
      openZones := fun g => if g = 1 then 1 else 0
      pgmOutputsChanged := fun g => if g = 0 then 2 else 0
      pgmOutputs := fun g => 0 } : DscState).openZonesChanged g).testBit b = false →
          ((zonesBlock (fun _ => true) { quietState with
      openZonesStatusChanged := true
      pgmOutputsStatusChanged := true
      openZonesChanged := fun g => if g = 1 then 1 else 0
      openZones := fun g => if g = 1 then 1 else 0
      pgmOutputsChanged := fun g => if g = 0 then 2 else 0
      pgmOutputs := fun g => 0 } ctx0).1.openZonesChanged g).testBit b =
            false))) ∧
    (∃ E : List Ev,
      (pgmBlock (fun _ => true) { quietState with
      openZonesStatusChanged := true
      pgmOutputsStatusChanged := true
      openZonesChanged := fun g => if g = 1 then 1 else 0
      openZones := fun g => if g = 1 then 1 else 0
      pgmOutputsChanged := fun g => if g = 0 then 2 else 0
      pgmOutputs := fun g => 0 } ctx0).2.evs = E ∧
      ((pgmBlock (fun _ => true) { quietState with
      openZonesStatusChanged := true
      pgmOutputsStatusChanged := true
      openZonesChanged := fun g => if g = 1 then 1 else 0
      openZones := fun g => if g = 1 then 1 else 0
      pgmOutputsChanged := fun g => if g = 0 then 2 else 0
      pgmOutputs := fun g => 0 } ctx0).1.pgmOutputsStatusChanged = false ↔
        E.all (fun e => e.ok) = true) ∧
      (∀ g b : Nat, g < 2 → b < 8 →
        ((({ quietState with
      openZonesStatusChanged := true
      pgmOutputsStatusChanged := true
      openZonesChanged := fun g => if g = 1 then 1 else 0
      openZones := fun g => if g = 1 then 1 else 0
      pgmOutputsChanged := fun g => if g = 0 then 2 else 0
      pgmOutputs := fun g => 0 } : DscState).pgmOutputsChanged g).testBit b = true →
          ∃ ok : Bool,
            E.filter (fun e =>
              decide (e.topic = Topic.pgm (b + 1 + g * 8))) =
              [⟨Topic.pgm (b + 1 + g * 8),
                if (({ quietState with
      openZonesStatusChanged := true
      pgmOutputsStatusChanged := true
      openZonesChanged := fun g => if g = 1 then 1 else 0
      openZones := fun g => if g = 1 then 1 else 0
      pgmOutputsChanged := fun g => if g = 0 then 2 else 0
      pgmOutputs := fun g => 0 } : DscState).pgmOutputs g).testBit b then "1" else "0",
                true, ok⟩] ∧
            ((pgmBlock (fun _ => true) { quietState with
      openZonesStatusChanged := true
      pgmOutputsStatusChanged := true
      openZonesChanged := fun g => if g = 1 then 1 else 0
      openZones := fun g => if g = 1 then 1 else 0
      pgmOutputsChanged := fun g => if g = 0 then 2 else 0
      pgmOutputs := fun g => 0 } ctx0).1.pgmOutputsChanged g).testBit b =
              !ok) ∧
        ((({ quietState with
      openZonesStatusChanged := true
      pgmOutputsStatusChanged := true
      openZonesChanged := fun g => if g = 1 then 1 else 0
      openZones := fun g => if g = 1 then 1 else 0
      pgmOutputsChanged := fun g => if g = 0 then 2 else 0
      pgmOutputs := fun g => 0 } : DscState).pgmOutputsChanged g).testBit b = false →
          ((pgmBlock (fun _ => true) { quietState with
      openZonesStatusChanged := true
      pgmOutputsStatusChanged := true
      openZonesChanged := fun g => if g = 1 then 1 else 0
      openZones := fun g => if g = 1 then 1 else 0
      pgmOutputsChanged := fun g => if g = 0 then 2 else 0
      pgmOutputs := fun g => 0 } ctx0).1.pgmOutputsChanged g).testBit b =
            false))) :=
  ⟨(claimC4_theorem (fun _ => true)
    { quietState with
      openZonesStatusChanged := true
      pgmOutputsStatusChanged := true
      openZonesChanged := fun g => if g = 1 then 1 else 0
      openZones := fun g => if g = 1 then 1 else 0
      pgmOutputsChanged := fun g => if g = 0 then 2 else 0
      pgmOutputs := fun g => 0 } ).1 rfl,
   (claimC4_theorem (fun _ => true)
    { quietState with
      openZonesStatusChanged := true
      pgmOutputsStatusChanged := true
      openZonesChanged := fun g => if g = 1 then 1 else 0
      openZones := fun g => if g = 1 then 1 else 0
      pgmOutputsChanged := fun g => if g = 0 then 2 else 0
      pgmOutputs := fun g => 0 } ).2 rfl⟩

/-- C6, counterexample to the claim as stated: with every publish
failing, a tick that attempts the armed-dimension publish (event recorded
with `ok = false`) still ends with the armed-changed marker cleared —
lines 481-484 clear it unconditionally — so the failed publish is never
retried. -/
theorem claimC6_counterexample :
    (loopScan (fun _ => false)
      { quietState with
          statusChanged := true
          armedChanged := fun i => decide (i = 0)
          armed := fun i => decide (i = 0)
          armedAway := fun i => decide (i = 0) } ctx0).2.evs =
      [⟨Topic.part 0, "armed_away", true, false⟩] ∧
    (loopScan (fun _ => false)
      { quietState with
          statusChanged := true
          armedChanged := fun i => decide (i = 0)
          armed := fun i => decide (i = 0)
          armedAway := fun i => decide (i = 0) } ctx0).1.armedChanged 0 =
      false := by
  decide

/-- C6 (amended): for the trouble flag, the exit-delay, alarm and fire
dimensions, and individual zone/PGM bits, the changed marker is cleared
only on a successful publish, the attempted topic and payload are a
function of the status fields alone, and after a failed publish the
state is unchanged and the next run retries the very same topic and
payload; the armed dimension also gates its own clear on success, BUT
the partition pass then clears the armed-changed marker unconditionally,
so a failed armed publish is not retried. -/
theorem claimC6_theorem (pub pub2 : Nat → Bool) (s : DscState) (c c2 : Ctx)
    (p : Nat) (tc : Nat → Topic) (stat : Nat → Nat) (w : SweepSt)
    (g b : Nat) :
    (s.troubleChanged = true →
      (troubleBlock pub s c).2.evs = c.evs ++
        [⟨Topic.trouble, if s.trouble then "1" else "0", true, pub c.k⟩] ∧
      (troubleBlock pub s c).1.troubleChanged = !(pub c.k) ∧
      (troubleBlock pub s c).1.trouble = s.trouble ∧
      (pub c.k = false →
        (troubleBlock pub2 (troubleBlock pub s c).1 c2).2.evs = c2.evs ++
          [⟨Topic.trouble, if s.trouble then "1" else "0", true,
            pub2 c2.k⟩])) ∧
    (s.exitDelayChanged p = true →
      (exitDelayBlock pub p s c).2.evs = c.evs ++
        (if s.exitDelay p = true then
          [⟨Topic.part p, "pending", true, pub c.k⟩]
        else if s.armed p = false then
          [⟨Topic.part p, "disarmed", true, pub c.k⟩]
        else []) ∧
      (exitDelayBlock pub p s c).1.exitDelayChanged p =
        !(if s.exitDelay p then pub c.k
          else if s.armed p then true else pub c.k) ∧
      (pub c.k = false → (s.exitDelay p = true ∨ s.armed p = false) →
        (exitDelayBlock pub p s c).1 = s ∧
        (exitDelayBlock pub2 p (exitDelayBlock pub p s c).1 c2).2.evs =
          c2.evs ++ [⟨Topic.part p,
            if s.exitDelay p then "pending" else "disarmed", true,
            pub2 c2.k⟩])) ∧
    (s.alarmChanged p = true →
      (alarmBlock pub p s c).2.evs = c.evs ++
        (if s.alarm p = true then
          [⟨Topic.part p, "triggered", true, pub c.k⟩]
        else if s.armedChanged p = false then
          [⟨Topic.part p, "disarmed", true, pub c.k⟩]
        else []) ∧
      (alarmBlock pub p s c).1.alarmChanged p =
        !(if s.alarm p then pub c.k
          else if s.armedChanged p then true else pub c.k) ∧
      (pub c.k = false → (s.alarm p = true ∨ s.armedChanged p = false) →
        (alarmBlock pub p s c).1 = s ∧
        (alarmBlock pub2 p (alarmBlock pub p s c).1 c2).2.evs =
          c2.evs ++ [⟨Topic.part p,
            if s.alarm p then "triggered" else "disarmed", true,
            pub2 c2.k⟩])) ∧
    (s.fireChanged p = true →
      (fireBlock pub p s c).2.evs = c.evs ++
        [⟨Topic.fire p, if s.fire p then "1" else "0", false, pub c.k⟩] ∧
      (fireBlock pub p s c).1.fireChanged p = !(pub c.k) ∧
      (pub c.k = false →
        (fireBlock pub p s c).1 = s ∧
        (fireBlock pub2 p (fireBlock pub p s c).1 c2).2.evs = c2.evs ++
          [⟨Topic.fire p, if s.fire p then "1" else "0", false,
            pub2 c2.k⟩])) ∧
    (s.armedChanged p = true → s.armed p = false →
      (armedBlock pub p s c).1.armedChanged p = !(pub c.k)) ∧
    (s.disabled p = false →
      (processPartition pub p (s, c)).1.armedChanged p = false) ∧
    ((w.chg g).testBit b = true →
      (bitStep pub tc stat w (g, b)).ctx.evs = w.ctx.evs ++
        [⟨tc (bitIdx (g, b)), if (stat g).testBit b then "1" else "0", true,
          pub w.ctx.k⟩] ∧
      ((bitStep pub tc stat w (g, b)).chg g).testBit b = !(pub w.ctx.k) ∧
      (pub w.ctx.k = false →
        (bitStep pub tc stat w (g, b)).chg = w.chg ∧
        (bitStep pub2 tc stat ⟨(bitStep pub tc stat w (g, b)).chg, true, c2⟩
          (g, b)).ctx.evs = c2.evs ++
          [⟨tc (bitIdx (g, b)), if (stat g).testBit b then "1" else "0",
            true, pub2 c2.k⟩])) := by
  refine ⟨?_, ?_, ?_, ?_, ?_, ?_, ?_⟩
  · intro h
    have hstate : pub c.k = false → (troubleBlock pub s c).1 = s := by
      intro hfail
      by_cases ht : s.trouble <;>
        simp [troubleBlock, publishMQTTMessage, h, ht, hfail]
    refine ⟨?_, ?_, ?_, ?_⟩
    · by_cases ht : s.trouble <;> by_cases hk : pub c.k <;>
        simp [troubleBlock, publishMQTTMessage, h, ht, hk]
    · by_cases ht : s.trouble <;> by_cases hk : pub c.k <;>
        simp [troubleBlock, publishMQTTMessage, h, ht, hk]
    · by_cases ht : s.trouble <;> by_cases hk : pub c.k <;>
        simp [troubleBlock, publishMQTTMessage, h, ht, hk]
    · intro hfail
      rw [hstate hfail]
      by_cases ht : s.trouble <;> by_cases hk : pub2 c2.k <;>
        simp [troubleBlock, publishMQTTMessage, h, ht, hk]
  · intro h
    refine ⟨?_, ?_, ?_⟩
    · by_cases he : s.exitDelay p <;> by_cases ha : s.armed p <;>
        by_cases hk : pub c.k <;>
        simp [exitDelayBlock, publishMQTTMessage, h, he, ha, hk, upd]
    · by_cases he : s.exitDelay p <;> by_cases ha : s.armed p <;>
        by_cases hk : pub c.k <;>
        simp [exitDelayBlock, publishMQTTMessage, h, he, ha, hk, upd]
    · intro hfail hatt
      have hstate : (exitDelayBlock pub p s c).1 = s := by
        rcases hatt with hatt | hatt
        · simp [exitDelayBlock, publishMQTTMessage, h, hatt, hfail]
        · by_cases he : s.exitDelay p <;>
            simp [exitDelayBlock, publishMQTTMessage, h, he, hatt, hfail]
      refine ⟨hstate, ?_⟩
      rw [hstate]
      rcases hatt with hatt | hatt
      · by_cases hk2 : pub2 c2.k <;>
          simp [exitDelayBlock, publishMQTTMessage, h, hatt, hk2]
      · by_cases he : s.exitDelay p <;> by_cases hk2 : pub2 c2.k <;>
          simp [exitDelayBlock, publishMQTTMessage, h, he, hatt, hk2]
  · intro h
    refine ⟨?_, ?_, ?_⟩
    · by_cases hal : s.alarm p <;> by_cases hac : s.armedChanged p <;>
        by_cases hk : pub c.k <;>
        simp [alarmBlock, publishMQTTMessage, h, hal, hac, hk, upd]
    · by_cases hal : s.alarm p <;> by_cases hac : s.armedChanged p <;>
        by_cases hk : pub c.k <;>
        simp [alarmBlock, publishMQTTMessage, h, hal, hac, hk, upd]
    · intro hfail hatt
      have hstate : (alarmBlock pub p s c).1 = s := by
        rcases hatt with hatt | hatt
        · simp [alarmBlock, publishMQTTMessage, h, hatt, hfail]
        · by_cases hal : s.alarm p <;>
            simp [alarmBlock, publishMQTTMessage, h, hal, hatt, hfail]
      refine ⟨hstate, ?_⟩
      rw [hstate]
      rcases hatt with hatt | hatt
      · by_cases hk2 : pub2 c2.k <;>
          simp [alarmBlock, publishMQTTMessage, h, hatt, hk2]
      · by_cases hal : s.alarm p <;> by_cases hk2 : pub2 c2.k <;>
          simp [alarmBlock, publishMQTTMessage, h, hal, hatt, hk2]
  · intro h
    have hstate : pub c.k = false → (fireBlock pub p s c).1 = s := by
      intro hfail
      by_cases hf : s.fire p <;>
        simp [fireBlock, publishMQTTMessage, h, hf, hfail]
    refine ⟨?_, ?_, ?_⟩
    · by_cases hf : s.fire p <;> by_cases hk : pub c.k <;>
        simp [fireBlock, publishMQTTMessage, h, hf, hk, upd]
    · by_cases hf : s.fire p <;> by_cases hk : pub c.k <;>
        simp [fireBlock, publishMQTTMessage, h, hf, hk, upd]
    · intro hfail
      refine ⟨hstate hfail, ?_⟩
      rw [hstate hfail]
      by_cases hf : s.fire p <;> by_cases hk2 : pub2 c2.k <;>
        simp [fireBlock, publishMQTTMessage, h, hf, hk2]
  · intro hac ha
    by_cases hk : pub c.k <;>
      simp [armedBlock, publishMQTTMessage, hac, ha, hk, upd]
  · intro hd
    exact processPartition_armedCleared pub p s c hd
  · intro h
    have hchg : pub w.ctx.k = false →
        (bitStep pub tc stat w (g, b)).chg = w.chg := by
      intro hfail
      by_cases hs : (stat g).testBit b <;>
        simp [bitStep, publishMQTTMessage, h, hs, hfail]
    refine ⟨?_, ?_, ?_⟩
    · by_cases hs : (stat g).testBit b <;> by_cases hk : pub w.ctx.k <;>
        simp [bitStep, publishMQTTMessage, h, hs, hk]
    · by_cases hs : (stat g).testBit b <;> by_cases hk : pub w.ctx.k <;>
        simp [bitStep, publishMQTTMessage, h, hs, hk, maskClear_testBit_self]
    · intro hfail
      refine ⟨hchg hfail, ?_⟩
      rw [hchg hfail]
      by_cases hs : (stat g).testBit b <;> by_cases hk2 : pub2 c2.k <;>
        simp [bitStep, publishMQTTMessage, h, hs, hk2]

/-- Witness for C6's amended theorem at a concrete state with every
marker set (alarm active, trouble active), the first run's publishes all
failing and the retry run's all succeeding: each dimension's marker,
failure-preserved state, and verbatim retry are exercised. -/
theorem claimC6_witness :
    ((troubleBlock (fun _ => false) { quietState with
        troubleChanged := true
        trouble := true
        exitDelayChanged := fun i => decide (i = 0)
        alarmChanged := fun i => decide (i = 0)
        alarm := fun i => decide (i = 0)
        fireChanged := fun i => decide (i = 0)
        armedChanged := fun i => decide (i = 0) } ctx0).2.evs = ctx0.evs ++
      [⟨Topic.trouble,
        if ({ quietState with
        troubleChanged := true
        trouble := true
        exitDelayChanged := fun i => decide (i = 0)
        alarmChanged := fun i => decide (i = 0)
        alarm := fun i => decide (i = 0)
        fireChanged := fun i => decide (i = 0)
        armedChanged := fun i => decide (i = 0) } : DscState).trouble then "1" else "0", true,
        (fun _ => false) ctx0.k⟩]) ∧
    ((troubleBlock (fun _ => false) { quietState with
        troubleChanged := true
        trouble := true
        exitDelayChanged := fun i => decide (i = 0)
        alarmChanged := fun i => decide (i = 0)
        alarm := fun i => decide (i = 0)
        fireChanged := fun i => decide (i = 0)
        armedChanged := fun i => decide (i = 0) } ctx0).1.troubleChanged =
      !((fun _ => false) ctx0.k)) ∧
    ((troubleBlock (fun _ => false) { quietState with
        troubleChanged := true
        trouble := true
        exitDelayChanged := fun i => decide (i = 0)
        alarmChanged := fun i => decide (i = 0)
        alarm := fun i => decide (i = 0)
        fireChanged := fun i => decide (i = 0)
        armedChanged := fun i => decide (i = 0) } ctx0).1.trouble =
      ({ quietState with
        troubleChanged := true
        trouble := true
        exitDelayChanged := fun i => decide (i = 0)
        alarmChanged := fun i => decide (i = 0)
        alarm := fun i => decide (i = 0)
        fireChanged := fun i => decide (i = 0)
        armedChanged := fun i => decide (i = 0) } : DscState).trouble) ∧
    ((troubleBlock (fun _ => true)
        (troubleBlock (fun _ => false) { quietState with
        troubleChanged := true
        trouble := true
        exitDelayChanged := fun i => decide (i = 0)
        alarmChanged := fun i => decide (i = 0)
        alarm := fun i => decide (i = 0)
        fireChanged := fun i => decide (i = 0)
        armedChanged := fun i => decide (i = 0) } ctx0).1 ctx0).2.evs =
      ctx0.evs ++
      [⟨Topic.trouble,
        if ({ quietState with
        troubleChanged := true
        trouble := true
        exitDelayChanged := fun i => decide (i = 0)
        alarmChanged := fun i => decide (i = 0)
        alarm := fun i => decide (i = 0)
        fireChanged := fun i => decide (i = 0)
        armedChanged := fun i => decide (i = 0) } : DscState).trouble then "1" else "0", true,
        (fun _ => true) ctx0.k⟩]) ∧
    ((exitDelayBlock (fun _ => false) 0 { quietState with
        troubleChanged := true
        trouble := true
        exitDelayChanged := fun i => decide (i = 0)
        alarmChanged := fun i => decide (i = 0)
        alarm := fun i => decide (i = 0)
        fireChanged := fun i => decide (i = 0)
        armedChanged := fun i => decide (i = 0) } ctx0).2.evs = ctx0.evs ++
      (if ({ quietState with
        troubleChanged := true
        trouble := true
        exitDelayChanged := fun i => decide (i = 0)
        alarmChanged := fun i => decide (i = 0)
        alarm := fun i => decide (i = 0)
        fireChanged := fun i => decide (i = 0)
        armedChanged := fun i => decide (i = 0) } : DscState).exitDelay 0 = true then
        [⟨Topic.part 0, "pending", true, (fun _ => false) ctx0.k⟩]
      else if ({ quietState with
        troubleChanged := true
        trouble := true
        exitDelayChanged := fun i => decide (i = 0)
        alarmChanged := fun i => decide (i = 0)
        alarm := fun i => decide (i = 0)
        fireChanged := fun i => decide (i = 0)
        armedChanged := fun i => decide (i = 0) } : DscState).armed 0 = false then
        [⟨Topic.part 0, "disarmed", true, (fun _ => false) ctx0.k⟩]
      else [])) ∧
    ((exitDelayBlock (fun _ => false) 0 { quietState with
        troubleChanged := true
        trouble := true
        exitDelayChanged := fun i => decide (i = 0)
        alarmChanged := fun i => decide (i = 0)
        alarm := fun i => decide (i = 0)
        fireChanged := fun i => decide (i = 0)
        armedChanged := fun i => decide (i = 0) } ctx0).1.exitDelayChanged 0 =
      !(if ({ quietState with
        troubleChanged := true
        trouble := true
        exitDelayChanged := fun i => decide (i = 0)
        alarmChanged := fun i => decide (i = 0)
        alarm := fun i => decide (i = 0)
        fireChanged := fun i => decide (i = 0)
        armedChanged := fun i => decide (i = 0) } : DscState).exitDelay 0 then (fun _ => false) ctx0.k
        else if ({ quietState with
        troubleChanged := true
        trouble := true
        exitDelayChanged := fun i => decide (i = 0)
        alarmChanged := fun i => decide (i = 0)
        alarm := fun i => decide (i = 0)
        fireChanged := fun i => decide (i = 0)
        armedChanged := fun i => decide (i = 0) } : DscState).armed 0 then true
        else (fun _ => false) ctx0.k)) ∧
    ((exitDelayBlock (fun _ => false) 0 { quietState with
        troubleChanged := true
        trouble := true
        exitDelayChanged := fun i => decide (i = 0)
        alarmChanged := fun i => decide (i = 0)
        alarm := fun i => decide (i = 0)
        fireChanged := fun i => decide (i = 0)
        armedChanged := fun i => decide (i = 0) } ctx0).1 =
      ({ quietState with
        troubleChanged := true
        trouble := true
        exitDelayChanged := fun i => decide (i = 0)
        alarmChanged := fun i => decide (i = 0)
        alarm := fun i => decide (i = 0)
        fireChanged := fun i => decide (i = 0)
        armedChanged := fun i => decide (i = 0) } : DscState)) ∧
    ((exitDelayBlock (fun _ => true) 0
        (exitDelayBlock (fun _ => false) 0 { quietState with
        troubleChanged := true
        trouble := true
        exitDelayChanged := fun i => decide (i = 0)
        alarmChanged := fun i => decide (i = 0)
        alarm := fun i => decide (i = 0)
        fireChanged := fun i => decide (i = 0)
        armedChanged := fun i => decide (i = 0) } ctx0).1 ctx0).2.evs =
      ctx0.evs ++ [⟨Topic.part 0,
        if ({ quietState with
        troubleChanged := true
        trouble := true
        exitDelayChanged := fun i => decide (i = 0)
        alarmChanged := fun i => decide (i = 0)
        alarm := fun i => decide (i = 0)
        fireChanged := fun i => decide (i = 0)
        armedChanged := fun i => decide (i = 0) } : DscState).exitDelay 0 then "pending" else "disarmed",
        true, (fun _ => true) ctx0.k⟩]) ∧
    ((alarmBlock (fun _ => false) 0 { quietState with
        troubleChanged := true
        trouble := true
        exitDelayChanged := fun i => decide (i = 0)
        alarmChanged := fun i => decide (i = 0)
        alarm := fun i => decide (i = 0)
        fireChanged := fun i => decide (i = 0)
        armedChanged := fun i => decide (i = 0) } ctx0).2.evs = ctx0.evs ++
      (if ({ quietState with
        troubleChanged := true
        trouble := true
        exitDelayChanged := fun i => decide (i = 0)
        alarmChanged := fun i => decide (i = 0)
        alarm := fun i => decide (i = 0)
        fireChanged := fun i => decide (i = 0)
        armedChanged := fun i => decide (i = 0) } : DscState).alarm 0 = true then
        [⟨Topic.part 0, "triggered", true, (fun _ => false) ctx0.k⟩]
      else if ({ quietState with
        troubleChanged := true
        trouble := true
        exitDelayChanged := fun i => decide (i = 0)
        alarmChanged := fun i => decide (i = 0)
        alarm := fun i => decide (i = 0)
        fireChanged := fun i => decide (i = 0)
        armedChanged := fun i => decide (i = 0) } : DscState).armedChanged 0 = false then
        [⟨Topic.part 0, "disarmed", true, (fun _ => false) ctx0.k⟩]
      else [])) ∧
    ((alarmBlock (fun _ => false) 0 { quietState with
        troubleChanged := true
        trouble := true
        exitDelayChanged := fun i => decide (i = 0)
        alarmChanged := fun i => decide (i = 0)
        alarm := fun i => decide (i = 0)
        fireChanged := fun i => decide (i = 0)
        armedChanged := fun i => decide (i = 0) } ctx0).1.alarmChanged 0 =
      !(if ({ quietState with
        troubleChanged := true
        trouble := true
        exitDelayChanged := fun i => decide (i = 0)
        alarmChanged := fun i => decide (i = 0)
        alarm := fun i => decide (i = 0)
        fireChanged := fun i => decide (i = 0)
        armedChanged := fun i => decide (i = 0) } : DscState).alarm 0 then (fun _ => false) ctx0.k
        else if ({ quietState with
        troubleChanged := true
        trouble := true
        exitDelayChanged := fun i => decide (i = 0)
        alarmChanged := fun i => decide (i = 0)
        alarm := fun i => decide (i = 0)
        fireChanged := fun i => decide (i = 0)
        armedChanged := fun i => decide (i = 0) } : DscState).armedChanged 0 then true
        else (fun _ => false) ctx0.k)) ∧
    ((alarmBlock (fun _ => false) 0 { quietState with
        troubleChanged := true
        trouble := true
        exitDelayChanged := fun i => decide (i = 0)
        alarmChanged := fun i => decide (i = 0)
        alarm := fun i => decide (i = 0)
        fireChanged := fun i => decide (i = 0)
        armedChanged := fun i => decide (i = 0) } ctx0).1 =
      ({ quietState with
        troubleChanged := true
        trouble := true
        exitDelayChanged := fun i => decide (i = 0)
        alarmChanged := fun i => decide (i = 0)
        alarm := fun i => decide (i = 0)
        fireChanged := fun i => decide (i = 0)
        armedChanged := fun i => decide (i = 0) } : DscState)) ∧
    ((alarmBlock (fun _ => true) 0
        (alarmBlock (fun _ => false) 0 { quietState with
        troubleChanged := true
        trouble := true
        exitDelayChanged := fun i => decide (i = 0)
        alarmChanged := fun i => decide (i = 0)
        alarm := fun i => decide (i = 0)
        fireChanged := fun i => decide (i = 0)
        armedChanged := fun i => decide (i = 0) } ctx0).1 ctx0).2.evs =
      ctx0.evs ++ [⟨Topic.part 0,
        if ({ quietState with
        troubleChanged := true
        trouble := true
        exitDelayChanged := fun i => decide (i = 0)
        alarmChanged := fun i => decide (i = 0)
        alarm := fun i => decide (i = 0)
        fireChanged := fun i => decide (i = 0)
        armedChanged := fun i => decide (i = 0) } : DscState).alarm 0 then "triggered" else "disarmed",
        true, (fun _ => true) ctx0.k⟩]) ∧
    ((fireBlock (fun _ => false) 0 { quietState with
        troubleChanged := true
        trouble := true
        exitDelayChanged := fun i => decide (i = 0)
        alarmChanged := fun i => decide (i = 0)
        alarm := fun i => decide (i = 0)
        fireChanged := fun i => decide (i = 0)
        armedChanged := fun i => decide (i = 0) } ctx0).2.evs = ctx0.evs ++
      [⟨Topic.fire 0,
        if ({ quietState with
        troubleChanged := true
        trouble := true
        exitDelayChanged := fun i => decide (i = 0)
        alarmChanged := fun i => decide (i = 0)
        alarm := fun i => decide (i = 0)
        fireChanged := fun i => decide (i = 0)
        armedChanged := fun i => decide (i = 0) } : DscState).fire 0 then "1" else "0", false,
        (fun _ => false) ctx0.k⟩]) ∧
    ((fireBlock (fun _ => false) 0 { quietState with
        troubleChanged := true
        trouble := true
        exitDelayChanged := fun i => decide (i = 0)
        alarmChanged := fun i => decide (i = 0)
        alarm := fun i => decide (i = 0)
        fireChanged := fun i => decide (i = 0)
        armedChanged := fun i => decide (i = 0) } ctx0).1.fireChanged 0 =
      !((fun _ => false) ctx0.k)) ∧
    ((fireBlock (fun _ => false) 0 { quietState with
        troubleChanged := true
        trouble := true
        exitDelayChanged := fun i => decide (i = 0)
        alarmChanged := fun i => decide (i = 0)
        alarm := fun i => decide (i = 0)
        fireChanged := fun i => decide (i = 0)
        armedChanged := fun i => decide (i = 0) } ctx0).1 =
      ({ quietState with
        troubleChanged := true
        trouble := true
        exitDelayChanged := fun i => decide (i = 0)
        alarmChanged := fun i => decide (i = 0)
        alarm := fun i => decide (i = 0)
        fireChanged := fun i => decide (i = 0)
        armedChanged := fun i => decide (i = 0) } : DscState)) ∧
    ((fireBlock (fun _ => true) 0
        (fireBlock (fun _ => false) 0 { quietState with
        troubleChanged := true
        trouble := true
        exitDelayChanged := fun i => decide (i = 0)
        alarmChanged := fun i => decide (i = 0)
        alarm := fun i => decide (i = 0)
        fireChanged := fun i => decide (i = 0)
        armedChanged := fun i => decide (i = 0) } ctx0).1 ctx0).2.evs =
      ctx0.evs ++ [⟨Topic.fire 0,
        if ({ quietState with
        troubleChanged := true
        trouble := true
        exitDelayChanged := fun i => decide (i = 0)
        alarmChanged := fun i => decide (i = 0)
        alarm := fun i => decide (i = 0)
        fireChanged := fun i => decide (i = 0)
        armedChanged := fun i => decide (i = 0) } : DscState).fire 0 then "1" else "0", false,
        (fun _ => true) ctx0.k⟩]) ∧
    ((armedBlock (fun _ => false) 0 { quietState with
        troubleChanged := true
        trouble := true
        exitDelayChanged := fun i => decide (i = 0)
        alarmChanged := fun i => decide (i = 0)
        alarm := fun i => decide (i = 0)
        fireChanged := fun i => decide (i = 0)
        armedChanged := fun i => decide (i = 0) } ctx0).1.armedChanged 0 =
      !((fun _ => false) ctx0.k)) ∧
    ((processPartition (fun _ => false) 0
      ({ quietState with
        troubleChanged := true
        trouble := true
        exitDelayChanged := fun i => decide (i = 0)
        alarmChanged := fun i => decide (i = 0)
        alarm := fun i => decide (i = 0)
        fireChanged := fun i => decide (i = 0)
        armedChanged := fun i => decide (i = 0) }, ctx0)).1.armedChanged 0 = false) ∧
    ((bitStep (fun _ => false) Topic.zone (fun _ => 0)
        (⟨fun gg => if gg = 0 then 1 else 0, true, ctx0⟩ : SweepSt) (0, 0)).ctx.evs =
      (⟨fun gg => if gg = 0 then 1 else 0, true, ctx0⟩ : SweepSt).ctx.evs ++
      [⟨Topic.zone (bitIdx (0, 0)),
        if ((fun _ => (0 : Nat)) 0).testBit 0 then "1" else "0", true,
        (fun _ => false) (⟨fun gg => if gg = 0 then 1 else 0, true, ctx0⟩ : SweepSt).ctx.k⟩]) ∧
    (((bitStep (fun _ => false) Topic.zone (fun _ => 0)
        (⟨fun gg => if gg = 0 then 1 else 0, true, ctx0⟩ : SweepSt) (0, 0)).chg 0).testBit 0 =
      !((fun _ => false) (⟨fun gg => if gg = 0 then 1 else 0, true, ctx0⟩ : SweepSt).ctx.k)) ∧
    ((bitStep (fun _ => false) Topic.zone (fun _ => 0)
        (⟨fun gg => if gg = 0 then 1 else 0, true, ctx0⟩ : SweepSt) (0, 0)).chg = (⟨fun gg => if gg = 0 then 1 else 0, true, ctx0⟩ : SweepSt).chg) ∧
    ((bitStep (fun _ => true) Topic.zone (fun _ => 0)
        ⟨(bitStep (fun _ => false) Topic.zone (fun _ => 0)
          (⟨fun gg => if gg = 0 then 1 else 0, true, ctx0⟩ : SweepSt) (0, 0)).chg, true, ctx0⟩ (0, 0)).ctx.evs =
      ctx0.evs ++
      [⟨Topic.zone (bitIdx (0, 0)),
        if ((fun _ => (0 : Nat)) 0).testBit 0 then "1" else "0", true,
        (fun _ => true) ctx0.k⟩]) := by
  have T := claimC6_theorem (fun _ => false) (fun _ => true)
    { quietState with
        troubleChanged := true
        trouble := true
        exitDelayChanged := fun i => decide (i = 0)
        alarmChanged := fun i => decide (i = 0)
        alarm := fun i => decide (i = 0)
        fireChanged := fun i => decide (i = 0)
        armedChanged := fun i => decide (i = 0) } ctx0 ctx0 0 Topic.zone (fun _ => 0)
    (⟨fun gg => if gg = 0 then 1 else 0, true, ctx0⟩ : SweepSt) 0 0
  obtain ⟨t1, t2, t3, t4, t5, t6, t7⟩ := T
  obtain ⟨a1, a2, a3, a4⟩ := t1 rfl
  obtain ⟨b1, b2, b3⟩ := t2 rfl
  obtain ⟨b3a, b3b⟩ := b3 rfl (Or.inr rfl)
  obtain ⟨c1, c2h, c3⟩ := t3 rfl
  obtain ⟨c3a, c3b⟩ := c3 rfl (Or.inl rfl)
  obtain ⟨d1, d2, d3⟩ := t4 rfl
  obtain ⟨d3a, d3b⟩ := d3 rfl
  obtain ⟨g1, g2, g3⟩ := t7 (by decide)
  obtain ⟨g3a, g3b⟩ := g3 rfl
  exact ⟨a1, a2, a3, a4 rfl, b1, b2, b3a, b3b, c1, c2h, c3a, c3b,
    d1, d2, d3a, d3b, t5 rfl rfl, t6 rfl, g1, g2, g3a, g3b⟩
